import Mathlib

/-!
Verification of the `achilles::math` single-header linear-algebra library
(`math.hpp`) against its natural-language specification.

Modelling choices:
* `f32` values are modelled as real numbers; the arithmetic of the source is
  transcribed verbatim over `ℝ`.
* The fast inverse square root `fisqrt` appears twice: `fisqrt` below is the
  exact bit-level model of the source function (operating on the IEEE-754
  single-precision bit pattern of a positive normal float, with the
  Newton-Raphson step carried out in exact rational arithmetic), and
  `invSqrt` is its idealised value `1 / sqrt n`, used when the surrounding
  real-arithmetic algorithms (normalization, matrix/quaternion conversion)
  call `fisqrt` on a real-valued intermediate.
* C++ member functions become Lean functions on the corresponding structure;
  the implicit `float3 → float4` conversion (which pads `w` with `0`) is made
  explicit as `float3.toFloat4`.
-/

namespace achilles.math

open scoped Classical

/-- Source constant `TAU` (math.hpp line 18): the literal
`6.28318530717958647692f`. -/
noncomputable def TAU : ℝ := 6.28318530717958647692

/-- Idealised real-arithmetic model of `fisqrt` (math.hpp lines 24-32): the
routine approximates `1/sqrt n`, and in the real-number embedding of the
algorithms that call it, it is modelled by that ideal value.  (The bit-exact
model of the routine itself is `fisqrt` further below.) -/
noncomputable def invSqrt (n : ℝ) : ℝ := (Real.sqrt n)⁻¹

/-- `sign` (math.hpp lines 34-36): `n >= 0.0f ? 1.0f : -1.0f`. -/
noncomputable def sign (n : ℝ) : ℝ := if 0 ≤ n then 1 else -1

/-- `abs` (math.hpp lines 38-40): `n < 0.0f ? -n : n`. -/
noncomputable def abs (n : ℝ) : ℝ := if n < 0 then -n else n

/-- `nearlyEqual` (math.hpp lines 42-46): `a == b`, or `abs(a - b) < epsilon`. -/
def nearlyEqual (a b epsilon : ℝ) : Prop :=
  if a = b then True else abs (a - b) < epsilon

/-- `clampi` (math.hpp lines 70-74), the `u64` clamp used by the indexing
accessors: `a > max ? max : (a < min ? min : a)`. -/
def clampi (a min max : ℕ) : ℕ :=
  if max < a then max else if a < min then min else a

/-- `float2` (math.hpp lines 125-180): two single-precision components. -/
@[ext] structure float2 where
  x : ℝ
  y : ℝ

/-- The backing array `values[2]` of `float2`. -/
def float2.values (v : float2) : ℕ → ℝ
  | 0 => v.x
  | _ => v.y

/-- `float2::operator[]` (math.hpp lines 148-151): clamps the index to `0..1`
and reads the backing array. -/
def float2.index (v : float2) (i : ℕ) : ℝ := v.values (clampi i 0 1)

instance : Sub float2 := ⟨fun a b => ⟨a.x - b.x, a.y - b.y⟩⟩

/-- `float2::sqrMagnitude` (math.hpp lines 463-465). -/
def float2.sqrMagnitude (v : float2) : ℝ := v.x * v.x + v.y * v.y

/-- `float2::dot` (math.hpp lines 490-492). -/
def float2.dot (a b : float2) : ℝ := a.x * b.x + a.y * b.y

/-- `float2::inverseLerp` (math.hpp lines 503-510). -/
noncomputable def float2.inverseLerp (a b c : float2) : ℝ :=
  if a = b then 0
  else
    let ab := b - a
    if ab.sqrMagnitude = 0 then 0
    else
      let ac := c - a
      if ac.sqrMagnitude = 0 then 0
      else ac.dot ab / ab.dot ab

/-- `float3` (math.hpp lines 181-233). -/
@[ext] structure float3 where
  x : ℝ
  y : ℝ
  z : ℝ

/-- The backing array `values[3]` of `float3`. -/
def float3.values (v : float3) : ℕ → ℝ
  | 0 => v.x
  | 1 => v.y
  | _ => v.z

/-- `float3::operator[]` (math.hpp lines 201-204): clamps the index to `0..2`
and reads the backing array. -/
def float3.index (v : float3) (i : ℕ) : ℝ := v.values (clampi i 0 2)

instance : Sub float3 := ⟨fun a b => ⟨a.x - b.x, a.y - b.y, a.z - b.z⟩⟩

/-- `float3::operator*(f32)` (math.hpp lines 558-560), scalar scaling. -/
def float3.scale (v : float3) (s : ℝ) : float3 := ⟨v.x * s, v.y * s, v.z * s⟩

/-- `float3::dot` (math.hpp lines 569-571). -/
def float3.dot (a b : float3) : ℝ := a.x * b.x + a.y * b.y + a.z * b.z

/-- `float3::cross` (math.hpp lines 573-579). -/
def float3.cross (a b : float3) : float3 :=
  ⟨a.y * b.z - a.z * b.y, a.z * b.x - a.x * b.z, a.x * b.y - a.y * b.x⟩

/-- `float3::sqrMagnitude` (math.hpp lines 581-583). -/
def float3.sqrMagnitude (v : float3) : ℝ := v.x * v.x + v.y * v.y + v.z * v.z

/-- `float3::normalized` (math.hpp lines 597-605): multiply each component by
`fisqrt(sqrMagnitude)`. -/
noncomputable def float3.normalized (v : float3) : float3 :=
  let root := invSqrt v.sqrMagnitude
  ⟨v.x * root, v.y * root, v.z * root⟩

/-- `float3::inverseLerp` (math.hpp lines 664-671). -/
noncomputable def float3.inverseLerp (a b c : float3) : ℝ :=
  if a = b then 0
  else
    let ab := b - a
    if ab.sqrMagnitude = 0 then 0
    else
      let ac := c - a
      if ac.sqrMagnitude = 0 then 0
      else ac.dot ab / ab.dot ab

/-- `float4` (math.hpp lines 234-293). -/
@[ext] structure float4 where
  x : ℝ
  y : ℝ
  z : ℝ
  w : ℝ

/-- The backing array `values[4]` of `float4`. -/
def float4.values (v : float4) : ℕ → ℝ
  | 0 => v.x
  | 1 => v.y
  | 2 => v.z
  | _ => v.w

/-- Write one slot of the backing array of a `float4`, used by
`float4x4::setColumn`. -/
def float4.setValue (v : float4) (i : ℕ) (r : ℝ) : float4 :=
  match i with
  | 0 => ⟨r, v.y, v.z, v.w⟩
  | 1 => ⟨v.x, r, v.z, v.w⟩
  | 2 => ⟨v.x, v.y, r, v.w⟩
  | _ => ⟨v.x, v.y, v.z, r⟩

/-- `float4::operator[]` (math.hpp lines 258-261): clamps the index to `0..3`
and reads the backing array. -/
def float4.index (v : float4) (i : ℕ) : ℝ := v.values (clampi i 0 3)

instance : Sub float4 := ⟨fun a b => ⟨a.x - b.x, a.y - b.y, a.z - b.z, a.w - b.w⟩⟩

/-- `float4::dot` (math.hpp lines 734-736). -/
def float4.dot (a b : float4) : ℝ := a.x * b.x + a.y * b.y + a.z * b.z + a.w * b.w

/-- `float4::sqrMagnitude` (math.hpp lines 738-740). -/
def float4.sqrMagnitude (v : float4) : ℝ :=
  v.x * v.x + v.y * v.y + v.z * v.z + v.w * v.w

/-- `float4::inverseLerp` (math.hpp lines 783-790). -/
noncomputable def float4.inverseLerp (a b c : float4) : ℝ :=
  if a = b then 0
  else
    let ab := b - a
    if ab.sqrMagnitude = 0 then 0
    else
      let ac := c - a
      if ac.sqrMagnitude = 0 then 0
      else ac.dot ab / ab.dot ab

/-- `float3::operator float4()` (math.hpp lines 717-719): implicit widening
conversion, padding `w` with the constructor default `0`. -/
def float3.toFloat4 (v : float3) : float4 := ⟨v.x, v.y, v.z, 0⟩

/-- `float4::operator float3()` (math.hpp lines 713-715): narrowing
conversion, dropping `w`. -/
def float4.toFloat3 (v : float4) : float3 := ⟨v.x, v.y, v.z⟩

/-- `quaternion` (math.hpp lines 294-320): `x, y, z` vector part, `w` scalar
part. -/
@[ext] structure quaternion where
  x : ℝ
  y : ℝ
  z : ℝ
  w : ℝ

/-- `quaternion::operator*` (math.hpp lines 803-810), the Hamilton product. -/
def quaternion.mul (p q : quaternion) : quaternion :=
  ⟨p.w * q.x + p.x * q.w + p.y * q.z - p.z * q.y,
   p.w * q.y + p.y * q.w + p.z * q.x - p.x * q.z,
   p.w * q.z + p.z * q.w + p.x * q.y - p.y * q.x,
   p.w * q.w - p.x * q.x - p.y * q.y - p.z * q.z⟩

instance : Mul quaternion := ⟨quaternion.mul⟩

/-- `quaternion::operator*=` (math.hpp lines 812-818).  The source assigns
`this->x`, `this->y`, `this->z`, `this->w` in sequence, so each later line
reads the components already overwritten by the earlier lines; the sequential
`let`s reproduce that. -/
def quaternion.mulInplace (p q : quaternion) : quaternion :=
  let x := p.w * q.x + p.x * q.w + p.y * q.z - p.z * q.y
  let y := p.w * q.y + p.y * q.w + p.z * q.x - x * q.z
  let z := p.w * q.z + p.z * q.w + x * q.y - y * q.x
  let w := p.w * q.w - x * q.x - y * q.y - z * q.z
  ⟨x, y, z, w⟩

/-- `quaternion::sqrMagnitude` (math.hpp lines 851-853). -/
def quaternion.sqrMagnitude (q : quaternion) : ℝ :=
  q.x * q.x + q.y * q.y + q.z * q.z + q.w * q.w

/-- `quaternion::normalized` (math.hpp lines 865-874). -/
noncomputable def quaternion.normalized (q : quaternion) : quaternion :=
  let root := invSqrt q.sqrMagnitude
  ⟨q.x * root, q.y * root, q.z * root, q.w * root⟩

/-- `quaternion::toAngleAxis` (math.hpp lines 876-891): returns the pair
(out angle, out axis).  `scalar` is the `w` component. -/
noncomputable def quaternion.toAngleAxis (q0 : quaternion) : ℝ × float3 :=
  let q := if 1 < q0.w then q0.normalized else q0
  let outAngle := 2 * Real.arccos q.w
  let s := invSqrt (1 - q.w * q.w)
  let outAxis : float3 := ⟨q.x, q.y, q.z⟩
  if nearlyEqual s 0 0.001 then (outAngle, outAxis)
  else (outAngle, outAxis.scale s)

/-- `std::atan2`, as used by `quaternion::toEulerAngles`: the argument of the
complex number `x + y*i`. -/
noncomputable def atan2 (y x : ℝ) : ℝ := Complex.arg ⟨x, y⟩

/-- `quaternion::toEulerAngles` (math.hpp lines 914-933). -/
noncomputable def quaternion.toEulerAngles (q : quaternion) : float3 :=
  let xsc := 2 * (q.w * q.x + q.y * q.z)
  let xcc := 1 - 2 * (q.x * q.x + q.y * q.y)
  let sinp := 2 * (q.w * q.y - q.z * q.x)
  let ry := if 1 ≤ abs sinp then TAU / 4 * sign sinp else Real.arcsin sinp
  let zsc := 2 * (q.w * q.z + q.x * q.y)
  let zcc := 1 - 2 * (q.y * q.y + q.z * q.z)
  ⟨atan2 xsc xcc, ry, atan2 zsc zcc⟩

/-- `float4x4` (math.hpp lines 321-413): four row vectors `a, b, c, d`;
`values[i][j]` is component `j` of row `i`. -/
@[ext] structure float4x4 where
  a : float4
  b : float4
  c : float4
  d : float4

/-- The default `float4x4` constructor value (math.hpp lines 333-338): the
identity matrix. -/
def float4x4.identity : float4x4 :=
  ⟨⟨1, 0, 0, 0⟩, ⟨0, 1, 0, 0⟩, ⟨0, 0, 1, 0⟩, ⟨0, 0, 0, 1⟩⟩

/-- `float4x4::getColumn` (math.hpp lines 969-977): clamps the index to
`0..3`, then gathers that component of each row. -/
def float4x4.getColumn (m : float4x4) (i : ℕ) : float4 :=
  let j := clampi i 0 3
  ⟨m.a.values j, m.b.values j, m.c.values j, m.d.values j⟩

/-- `float4x4::setColumn` (math.hpp lines 979-986): clamps the index to
`0..3`, then writes that component of each row. -/
def float4x4.setColumn (m : float4x4) (i : ℕ) (value : float4) : float4x4 :=
  let j := clampi i 0 3
  ⟨m.a.setValue j value.x, m.b.setValue j value.y,
   m.c.setValue j value.z, m.d.setValue j value.w⟩

/-- `float4x4::transposed` (math.hpp lines 1152-1159). -/
def float4x4.transposed (m : float4x4) : float4x4 :=
  ⟨⟨m.a.x, m.b.x, m.c.x, m.d.x⟩,
   ⟨m.a.y, m.b.y, m.c.y, m.d.y⟩,
   ⟨m.a.z, m.b.z, m.c.z, m.d.z⟩,
   ⟨m.a.w, m.b.w, m.c.w, m.d.w⟩⟩

/-- `float4x4::operator*(float4)` (math.hpp lines 1085-1092): each result
component is the dot product of a row with `v`. -/
def float4x4.mulVec (m : float4x4) (v : float4) : float4 :=
  ⟨m.a.dot v, m.b.dot v, m.c.dot v, m.d.dot v⟩

/-- `float4x4::operator*(float3)` (math.hpp lines 1094-1096): widen with
`w = 1`, multiply, narrow. -/
def float4x4.mulPoint (m : float4x4) (v : float3) : float3 :=
  (m.mulVec ⟨v.x, v.y, v.z, 1⟩).toFloat3

/-- `float4x4::perspectiveMul` (math.hpp lines 1098-1110).  Note that the
source computes `rows.a.dot(v)` with `v` a `float3`, so `v` is implicitly
widened with `w = 0` before each dot product. -/
noncomputable def float4x4.perspectiveMul (m : float4x4) (v : float3) : float3 :=
  let result : float3 :=
    ⟨m.a.dot v.toFloat4, m.b.dot v.toFloat4, m.c.dot v.toFloat4⟩
  let w := m.d.dot v.toFloat4
  let w := 1 / w
  ⟨result.x * w, result.y * w, result.z * w⟩

/-- `float4x4::fromRotation` (math.hpp lines 1112-1135).  The local doubled
products (`x2 = q.x + q.x`, `yy = q.y * y2`, ...) are kept as `let`s. -/
def float4x4.fromRotation (q : quaternion) : float4x4 :=
  let x2 := q.x + q.x
  let y2 := q.y + q.y
  let z2 := q.z + q.z
  let yy := q.y * y2
  let xy := q.x * y2
  let xz := q.x * z2
  let yz := q.y * z2
  let zz := q.z * z2
  let wz := q.w * z2
  let wy := q.w * y2
  let wx := q.w * x2
  let xx := q.x * x2
  ⟨⟨1 - yy - zz, xy - wz, xz + wy, 0⟩,
   ⟨xy + wz, 1 - xx - zz, yz - wx, 0⟩,
   ⟨xz - wy, yz + wx, 1 - xx - yy, 0⟩,
   ⟨0, 0, 0, 1⟩⟩

/-- `float4x4::toRotation` (math.hpp lines 1253-1291): trace-based
branch-select extraction of a quaternion from the upper-left 3x3 block.
`values[0][0] = a.x`, `values[1][1] = b.y`, `values[2][2] = c.z`, and so on. -/
noncomputable def float4x4.toRotation (m : float4x4) : quaternion :=
  let trace := m.a.x + m.b.y + m.c.z
  if 0 < trace then
    let root := invSqrt (trace + 1) * 0.5
    ⟨(m.b.z - m.c.y) * root, (m.c.x - m.a.z) * root, (m.a.y - m.b.x) * root,
     root * (trace + 1)⟩
  else if m.b.y < m.a.x ∧ m.c.z < m.a.x then
    let trace1 := m.a.x - m.b.y - m.c.z + 1
    let root := invSqrt trace1 * 0.5
    ⟨root * trace1, (m.a.y + m.b.x) * root, (m.c.x + m.a.z) * root,
     (m.b.z - m.c.y) * root⟩
  else if m.c.z < m.b.y then
    let trace1 := -m.a.x + m.b.y - m.c.z + 1
    let root := invSqrt trace1 * 0.5
    ⟨(m.a.y + m.b.x) * root, root * trace1, (m.b.z + m.c.y) * root,
     (m.c.x - m.a.z) * root⟩
  else
    let trace1 := -m.a.x - m.b.y + m.c.z + 1
    let root := invSqrt trace1 * 0.5
    ⟨(m.c.x + m.a.z) * root, (m.b.z + m.c.y) * root, root * trace1,
     (m.a.y - m.b.x) * root⟩

/-- `float4x4::lookAt` (math.hpp lines 1319-1326).  The source first
normalizes `up` in place. -/
noncomputable def float4x4.lookAt (point eye up : float3) : float4x4 :=
  let up' := up.normalized
  let zaxis := (point - eye).normalized
  let xaxis := (up'.cross zaxis).normalized
  let yaxis := zaxis.cross xaxis
  let w : float4 := ⟨-(xaxis.dot eye), -(yaxis.dot eye), -(zaxis.dot eye), 1⟩
  ⟨xaxis.toFloat4, yaxis.toFloat4, zaxis.toFloat4, w⟩

/-- `float4x4::perspectiveGL` (math.hpp lines 1219-1232). -/
noncomputable def float4x4.perspectiveGL (fov aspectRatio near far : ℝ) : float4x4 :=
  let tangent := Real.tan (fov * 0.5)
  let yScale := 1 / tangent
  let xScale := yScale / aspectRatio
  let a := -(far + near) / (far - near)
  let h := 2 * far * near / (far - near)
  ⟨⟨xScale, 0, 0, 0⟩, ⟨0, yScale, 0, 0⟩, ⟨0, 0, a, 1⟩, ⟨0, 0, h, 0⟩⟩

/-- `float4x4::orthoGL` (math.hpp lines 1234-1241). -/
noncomputable def float4x4.orthoGL (left right bottom top near far : ℝ) : float4x4 :=
  ⟨⟨2 / (right - left), 0, 0, 0⟩,
   ⟨0, 2 / (top - bottom), 0, 0⟩,
   ⟨0, 0, -2 / (far - near), 0⟩,
   ⟨-(right + left) / (right - left), -(top + bottom) / (top - bottom),
    -(far + near) / (far - near), 0⟩⟩

/-- The value of the positive normal float with bit pattern `b`:
mantissa `b % 2^23`, biased exponent `b / 2^23`. -/
def decodeBits (b : ℕ) : ℚ :=
  (1 + ((b % 2 ^ 23 : ℕ) : ℚ) / 2 ^ 23) * 2 ^ (((b / 2 ^ 23 : ℕ) : ℤ) - 127)

/-- Bit-level model of `fisqrt` (math.hpp lines 24-32) on the IEEE-754
single-precision bit pattern `b` of a positive normal float: the seed is the
float decoded from `0x5F1FFFF9 - (b >> 1)`, refined by the tuned
Newton-Raphson step `y * 0.703952253f * (2.38924456f - n * y * y)`, carried
out in exact rational arithmetic. -/
def fisqrt (b : ℕ) : ℚ :=
  let n := decodeBits b
  let i := 0x5F1FFFF9 - b / 2
  let y := decodeBits i
  y * (0.703952253 : ℚ) * ((2.38924456 : ℚ) - n * y * y)

/-! ### Helper lemmas -/

@[simp] lemma float2_sub_def (a b : float2) : a - b = ⟨a.x - b.x, a.y - b.y⟩ := rfl

@[simp] lemma float3_sub_def (a b : float3) :
    a - b = ⟨a.x - b.x, a.y - b.y, a.z - b.z⟩ := rfl

@[simp] lemma float4_sub_def (a b : float4) :
    a - b = ⟨a.x - b.x, a.y - b.y, a.z - b.z, a.w - b.w⟩ := rfl

lemma float2_sqrMagnitude_sub_eq_zero {a b : float2} :
    (b - a).sqrMagnitude = 0 ↔ b = a := by
  simp only [float2_sub_def, float2.sqrMagnitude]
  constructor
  · intro h
    ext
    · nlinarith [sq_nonneg (b.x - a.x), sq_nonneg (b.y - a.y)]
    · nlinarith [sq_nonneg (b.x - a.x), sq_nonneg (b.y - a.y)]
  · intro h
    rw [h]
    ring

lemma float3_sqrMagnitude_sub_eq_zero {a b : float3} :
    (b - a).sqrMagnitude = 0 ↔ b = a := by
  simp only [float3_sub_def, float3.sqrMagnitude]
  constructor
  · intro h
    ext <;>
      nlinarith [sq_nonneg (b.x - a.x), sq_nonneg (b.y - a.y), sq_nonneg (b.z - a.z)]
  · intro h
    rw [h]
    ring

lemma float4_sqrMagnitude_sub_eq_zero {a b : float4} :
    (b - a).sqrMagnitude = 0 ↔ b = a := by
  simp only [float4_sub_def, float4.sqrMagnitude]
  constructor
  · intro h
    ext <;>
      nlinarith [sq_nonneg (b.x - a.x), sq_nonneg (b.y - a.y), sq_nonneg (b.z - a.z),
        sq_nonneg (b.w - a.w)]
  · intro h
    rw [h]
    ring

/-! ### Claim C10: clamped indexing -/

/-- Claim C10: `float2/float3/float4::operator[]` and
`float4x4::getColumn/setColumn` first clamp the index into the valid range
(`0..1`, `0..2`, `0..3` respectively), so an in-range index reads the
corresponding slot of the backing array and an out-of-range index accesses the
last valid component or column. -/
theorem claim_C10 :
    (∀ (v : float2) (i : ℕ), i ≤ 1 → v.index i = v.values i) ∧
    (∀ (v : float2) (i : ℕ), 2 ≤ i → v.index i = v.y) ∧
    (∀ (v : float3) (i : ℕ), i ≤ 2 → v.index i = v.values i) ∧
    (∀ (v : float3) (i : ℕ), 3 ≤ i → v.index i = v.z) ∧
    (∀ (v : float4) (i : ℕ), i ≤ 3 → v.index i = v.values i) ∧
    (∀ (v : float4) (i : ℕ), 4 ≤ i → v.index i = v.w) ∧
    (∀ (m : float4x4) (i : ℕ), 4 ≤ i → m.getColumn i = m.getColumn 3) ∧
    (∀ (m : float4x4) (i : ℕ) (value : float4),
      4 ≤ i → m.setColumn i value = m.setColumn 3 value) := by
  have h2 : ∀ i : ℕ, i ≤ 1 → clampi i 0 1 = i := by
    intro i hi
    unfold clampi
    rw [if_neg (by omega), if_neg (by omega)]
  have h2' : ∀ i : ℕ, 2 ≤ i → clampi i 0 1 = 1 := by
    intro i hi
    unfold clampi
    rw [if_pos (by omega)]
  have h3 : ∀ i : ℕ, i ≤ 2 → clampi i 0 2 = i := by
    intro i hi
    unfold clampi
    rw [if_neg (by omega), if_neg (by omega)]
  have h3' : ∀ i : ℕ, 3 ≤ i → clampi i 0 2 = 2 := by
    intro i hi
    unfold clampi
    rw [if_pos (by omega)]
  have h4 : ∀ i : ℕ, i ≤ 3 → clampi i 0 3 = i := by
    intro i hi
    unfold clampi
    rw [if_neg (by omega), if_neg (by omega)]
  have h4' : ∀ i : ℕ, 4 ≤ i → clampi i 0 3 = 3 := by
    intro i hi
    unfold clampi
    rw [if_pos (by omega)]
  refine ⟨?_, ?_, ?_, ?_, ?_, ?_, ?_, ?_⟩
  · intro v i hi
    unfold float2.index
    rw [h2 i hi]
  · intro v i hi
    unfold float2.index
    rw [h2' i hi]
    rfl
  · intro v i hi
    unfold float3.index
    rw [h3 i hi]
  · intro v i hi
    unfold float3.index
    rw [h3' i hi]
    rfl
  · intro v i hi
    unfold float4.index
    rw [h4 i hi]
  · intro v i hi
    unfold float4.index
    rw [h4' i hi]
    rfl
  · intro m i hi
    unfold float4x4.getColumn
    rw [h4' i hi, h4 3 (by omega)]
  · intro m i value hi
    unfold float4x4.setColumn
    rw [h4' i hi, h4 3 (by omega)]

/-- Witness for claim C10 at a concrete out-of-range index. -/
theorem claim_C10_witness : 4 ≤ 9 ∧ (float4.mk 1 2 3 4).index 9 = 4 :=
  ⟨by norm_num, by rw [claim_C10.2.2.2.2.2.1 ⟨1, 2, 3, 4⟩ 9 (by norm_num)]⟩

/-! ### Claim C5: in-place quaternion product -/

/-- Claim C5 (code bug): the in-place product `quaternion::operator*=`
overwrites `x`, `y`, `z` before the later component formulas read them, so it
does not agree with the pure Hamilton product `operator*`.  At `p = i`
(x-axis unit) and `q = j` (y-axis unit), the pure product is `k = (0,0,1,0)`
but the in-place product yields `(0,0,0,0)`. -/
theorem claim_C5 :
    quaternion.mulInplace ⟨1, 0, 0, 0⟩ ⟨0, 1, 0, 0⟩ = ⟨0, 0, 0, 0⟩ ∧
    (⟨1, 0, 0, 0⟩ : quaternion) * ⟨0, 1, 0, 0⟩ = ⟨0, 0, 1, 0⟩ ∧
    quaternion.mulInplace ⟨1, 0, 0, 0⟩ ⟨0, 1, 0, 0⟩ ≠
      (⟨1, 0, 0, 0⟩ : quaternion) * ⟨0, 1, 0, 0⟩ := by
  have h1 : quaternion.mulInplace ⟨1, 0, 0, 0⟩ ⟨0, 1, 0, 0⟩ = ⟨0, 0, 0, 0⟩ := by
    unfold quaternion.mulInplace
    ext <;> norm_num
  have h2 : (⟨1, 0, 0, 0⟩ : quaternion) * ⟨0, 1, 0, 0⟩ = ⟨0, 0, 1, 0⟩ := by
    show quaternion.mul _ _ = _
    unfold quaternion.mul
    ext <;> norm_num
  refine ⟨h1, h2, ?_⟩
  rw [h1, h2]
  simp [quaternion.mk.injEq]

/-! ### Claim C6: degenerate inputs of the vector inverseLerp -/

/-- Counterexample to claim C6 as stated: when the probe coincides with the
second endpoint (`c = b`, with `a ≠ b`), the vector `inverseLerp` returns 1,
not 0. -/
theorem claim_C6_counterexample :
    float2.inverseLerp ⟨0, 0⟩ ⟨1, 0⟩ ⟨1, 0⟩ = 1 ∧
    float2.inverseLerp ⟨0, 0⟩ ⟨1, 0⟩ ⟨1, 0⟩ ≠ 0 := by
  have h : float2.inverseLerp ⟨0, 0⟩ ⟨1, 0⟩ ⟨1, 0⟩ = 1 := by
    unfold float2.inverseLerp
    rw [if_neg (by simp [float2.mk.injEq])]
    simp only [float2_sub_def, float2.sqrMagnitude, float2.dot]
    norm_num
  exact ⟨h, by rw [h]; norm_num⟩

/-- Claim C6 (amended): for the vector-form `inverseLerp` on `float2`,
`float3` and `float4`, the result is 0 whenever the two reference points
coincide (`a = b`) or the probe coincides with the first endpoint (`c = a`);
when the probe coincides with the second endpoint (`c = b`, `a ≠ b`) the
result is 1, not 0. -/
theorem claim_C6 :
    (∀ a b c : float2,
      (a = b ∨ c = a → float2.inverseLerp a b c = 0) ∧
      (a ≠ b → c = b → float2.inverseLerp a b c = 1)) ∧
    (∀ a b c : float3,
      (a = b ∨ c = a → float3.inverseLerp a b c = 0) ∧
      (a ≠ b → c = b → float3.inverseLerp a b c = 1)) ∧
    (∀ a b c : float4,
      (a = b ∨ c = a → float4.inverseLerp a b c = 0) ∧
      (a ≠ b → c = b → float4.inverseLerp a b c = 1)) := by
  refine ⟨fun a b c => ⟨?_, ?_⟩, fun a b c => ⟨?_, ?_⟩, fun a b c => ⟨?_, ?_⟩⟩
  · rintro (rfl | rfl)
    · unfold float2.inverseLerp
      rw [if_pos rfl]
    · unfold float2.inverseLerp
      dsimp only
      split_ifs with h1 h2 h3 <;> first
        | rfl
        | exact absurd (float2_sqrMagnitude_sub_eq_zero.mpr rfl) h3
  · intro hab hcb
    subst hcb
    unfold float2.inverseLerp
    rw [if_neg hab, if_neg (fun h => hab (float2_sqrMagnitude_sub_eq_zero.mp h).symm),
      if_neg (fun h => hab (float2_sqrMagnitude_sub_eq_zero.mp h).symm)]
    exact div_self fun h => hab (float2_sqrMagnitude_sub_eq_zero.mp h).symm
  · rintro (rfl | rfl)
    · unfold float3.inverseLerp
      rw [if_pos rfl]
    · unfold float3.inverseLerp
      dsimp only
      split_ifs with h1 h2 h3 <;> first
        | rfl
        | exact absurd (float3_sqrMagnitude_sub_eq_zero.mpr rfl) h3
  · intro hab hcb
    subst hcb
    unfold float3.inverseLerp
    rw [if_neg hab, if_neg (fun h => hab (float3_sqrMagnitude_sub_eq_zero.mp h).symm),
      if_neg (fun h => hab (float3_sqrMagnitude_sub_eq_zero.mp h).symm)]
    exact div_self fun h => hab (float3_sqrMagnitude_sub_eq_zero.mp h).symm
  · rintro (rfl | rfl)
    · unfold float4.inverseLerp
      rw [if_pos rfl]
    · unfold float4.inverseLerp
      dsimp only
      split_ifs with h1 h2 h3 <;> first
        | rfl
        | exact absurd (float4_sqrMagnitude_sub_eq_zero.mpr rfl) h3
  · intro hab hcb
    subst hcb
    unfold float4.inverseLerp
    rw [if_neg hab, if_neg (fun h => hab (float4_sqrMagnitude_sub_eq_zero.mp h).symm),
      if_neg (fun h => hab (float4_sqrMagnitude_sub_eq_zero.mp h).symm)]
    exact div_self fun h => hab (float4_sqrMagnitude_sub_eq_zero.mp h).symm

/-- Witness for the amended claim C6 at concrete degenerate inputs. -/
theorem claim_C6_witness :
    (⟨2, 3⟩ : float2) ≠ ⟨5, 7⟩ ∧ float2.inverseLerp ⟨2, 3⟩ ⟨5, 7⟩ ⟨5, 7⟩ = 1 ∧
    float2.inverseLerp ⟨2, 3⟩ ⟨2, 3⟩ ⟨5, 7⟩ = 0 := by
  have hne : (⟨2, 3⟩ : float2) ≠ ⟨5, 7⟩ := by simp [float2.mk.injEq]
  exact ⟨hne, (claim_C6.1 ⟨2, 3⟩ ⟨5, 7⟩ ⟨5, 7⟩).2 hne rfl,
    (claim_C6.1 ⟨2, 3⟩ ⟨2, 3⟩ ⟨5, 7⟩).1 (Or.inl rfl)⟩

/-! ### Claim C9: gimbal-lock clamp in toEulerAngles -/

/-- Claim C9: whenever the pitch sine term `2*(w*y - z*x)` has magnitude at
least 1, `toEulerAngles` returns `TAU/4` (+90 degrees in radians) times the
sign of that term as the pitch, without evaluating the inverse sine; for
smaller magnitudes it returns the inverse sine of the term. -/
theorem claim_C9 (q : quaternion) :
    (1 ≤ abs (2 * (q.w * q.y - q.z * q.x)) →
      (q.toEulerAngles).y = TAU / 4 * sign (2 * (q.w * q.y - q.z * q.x))) ∧
    (abs (2 * (q.w * q.y - q.z * q.x)) < 1 →
      (q.toEulerAngles).y = Real.arcsin (2 * (q.w * q.y - q.z * q.x))) := by
  unfold quaternion.toEulerAngles
  dsimp only
  constructor
  · intro h
    rw [if_pos h]
  · intro h
    rw [if_neg (by linarith)]

/-- Witness for claim C9 at the gimbal-lock quaternion `(0, 1, 0, 1)`, whose
pitch sine term is 2. -/
theorem claim_C9_witness :
    1 ≤ abs 2 ∧ (quaternion.toEulerAngles ⟨0, 1, 0, 1⟩).y = TAU / 4 * sign 2 := by
  have habs : (1 : ℝ) ≤ abs 2 := by
    unfold abs
    norm_num
  refine ⟨habs, ?_⟩
  have h := (claim_C9 ⟨0, 1, 0, 1⟩).1 (by
    show (1 : ℝ) ≤ abs (2 * (1 * 1 - 0 * 0))
    norm_num
    exact habs)
  rw [h]
  norm_num

/-! ### Claim C4: the angle-axis singularity guard -/

/-- Claim C4 (code bug): at a quaternion with `1 - w*w ≈ 2e-8` (rotation
angle near 0), `toAngleAxis` does not leave the axis as the raw vector part:
`s = fisqrt(1 - w*w)` is huge there (about 7071, not close to 0), so the
code takes the scaling branch and multiplies the axis by `s`. -/
theorem claim_C4 :
    (quaternion.toAngleAxis ⟨1 / 10000, 0, 0, 99999999 / 100000000⟩).2 =
      float3.scale ⟨1 / 10000, 0, 0⟩
        (invSqrt (1 - 99999999 / 100000000 * (99999999 / 100000000))) ∧
    (quaternion.toAngleAxis ⟨1 / 10000, 0, 0, 99999999 / 100000000⟩).2 ≠
      ⟨1 / 10000, 0, 0⟩ := by
  have harg : (1 : ℝ) - 99999999 / 100000000 * (99999999 / 100000000) =
      199999999 / 10 ^ 16 := by norm_num
  have hsqrt_le : Real.sqrt (199999999 / 10 ^ 16) ≤ 1 / 1000 := by
    have h1 : (199999999 / 10 ^ 16 : ℝ) ≤ (1 / 1000) ^ 2 := by norm_num
    calc Real.sqrt (199999999 / 10 ^ 16) ≤ Real.sqrt ((1 / 1000) ^ 2) :=
          Real.sqrt_le_sqrt h1
      _ = 1 / 1000 := Real.sqrt_sq (by norm_num)
  have hsqrt_pos : 0 < Real.sqrt (199999999 / 10 ^ 16) :=
    Real.sqrt_pos.mpr (by norm_num)
  have hs_ge : (1000 : ℝ) ≤ invSqrt (199999999 / 10 ^ 16) := by
    unfold invSqrt
    calc (1000 : ℝ) = (1 / 1000)⁻¹ := by norm_num
      _ ≤ (Real.sqrt (199999999 / 10 ^ 16))⁻¹ :=
          inv_anti₀ hsqrt_pos hsqrt_le
  have hnear : ¬ nearlyEqual (invSqrt (199999999 / 10 ^ 16)) 0 0.001 := by
    unfold nearlyEqual
    rw [if_neg (by intro h; rw [h] at hs_ge; norm_num at hs_ge)]
    unfold abs
    rw [if_neg (by intro h; linarith)]
    intro h
    linarith
  have hbody :
      (quaternion.toAngleAxis ⟨1 / 10000, 0, 0, 99999999 / 100000000⟩).2 =
        float3.scale ⟨1 / 10000, 0, 0⟩
          (invSqrt (1 - 99999999 / 100000000 * (99999999 / 100000000))) := by
    unfold quaternion.toAngleAxis
    rw [if_neg (by norm_num : ¬ (1 : ℝ) < 99999999 / 100000000)]
    dsimp only
    rw [harg, if_neg hnear]
  refine ⟨hbody, ?_⟩
  rw [hbody, harg]
  intro hcontr
  have hx := congrArg float3.x hcontr
  simp only [float3.scale] at hx
  have : invSqrt (199999999 / 10 ^ 16) = 1 := by
    field_simp at hx
    linarith
  rw [this] at hs_ge
  norm_num at hs_ge

/-! ### Claim C7: lookAt -/

lemma float3.sqrMagnitude_nonneg (v : float3) : 0 ≤ v.sqrMagnitude := by
  unfold float3.sqrMagnitude
  nlinarith [mul_self_nonneg v.x, mul_self_nonneg v.y, mul_self_nonneg v.z]

lemma float3.sqrMagnitude_eq_zero {v : float3} :
    v.sqrMagnitude = 0 ↔ v = ⟨0, 0, 0⟩ := by
  unfold float3.sqrMagnitude
  constructor
  · intro h
    ext <;> dsimp only <;>
      nlinarith [mul_self_nonneg v.x, mul_self_nonneg v.y, mul_self_nonneg v.z]
  · intro h
    rw [h]
    ring

/-- Normalizing after scaling by a positive factor gives the same result as
normalizing the unscaled vector. -/
lemma float3.normalized_scale (v : float3) (c : ℝ) (hc : 0 < c) :
    (v.scale c).normalized = v.normalized := by
  have hcne : c ≠ 0 := hc.ne'
  unfold float3.normalized float3.scale float3.sqrMagnitude invSqrt
  dsimp only
  have harg : v.x * c * (v.x * c) + v.y * c * (v.y * c) + v.z * c * (v.z * c) =
      c ^ 2 * (v.x * v.x + v.y * v.y + v.z * v.z) := by ring
  rw [harg, Real.sqrt_mul (by positivity), Real.sqrt_sq hc.le, mul_inv]
  ext <;> dsimp only <;>
    rw [← mul_assoc, mul_assoc _ c c⁻¹, mul_inv_cancel₀ hcne, mul_one]

/-- The right axis of `lookAt` does not depend on whether `up` was normalized
first: normalizing the cross product absorbs the scaling. -/
lemma float3.normalized_cross_normalized (u z : float3) :
    (u.normalized.cross z).normalized = (u.cross z).normalized := by
  have hc0 : 0 ≤ invSqrt u.sqrMagnitude := by
    unfold invSqrt
    positivity
  have hcross : u.normalized.cross z = (u.cross z).scale (invSqrt u.sqrMagnitude) := by
    unfold float3.normalized float3.cross float3.scale
    dsimp only
    ext <;> ring
  rw [hcross]
  rcases eq_or_lt_of_le hc0 with h0 | hpos
  · have hu : u = ⟨0, 0, 0⟩ := by
      by_contra hne
      have hspos : 0 < u.sqrMagnitude := by
        rcases lt_or_eq_of_le (float3.sqrMagnitude_nonneg u) with h | h
        · exact h
        · exact absurd (float3.sqrMagnitude_eq_zero.mp h.symm) hne
      have hgt : 0 < invSqrt u.sqrMagnitude := by
        unfold invSqrt
        exact inv_pos.mpr (Real.sqrt_pos.mpr hspos)
      rw [← h0] at hgt
      exact lt_irrefl 0 hgt
    rw [hu]
    unfold float3.cross float3.scale float3.normalized
    dsimp only
    ext <;> dsimp only <;> ring_nf
  · exact float3.normalized_scale (u.cross z) _ hpos

/-- Claim C7: `lookAt(target, eye, up)` produces the view matrix whose first
three rows are the orthonormal basis right = normalized(up x forward),
recomputed up = forward x right, forward = normalized(target - eye) (each
padded with 0), and whose fourth row is
(-right.dot(eye), -up2.dot(eye), -forward.dot(eye), 1); in particular
`lookAt(target=(0,0,1), eye=(0,0,0), up=(0,1,0))` is the identity matrix. -/
theorem claim_C7 :
    (∀ point eye up : float3,
      float4x4.lookAt point eye up =
        ⟨((up.cross ((point - eye).normalized)).normalized).toFloat4,
         (((point - eye).normalized).cross
            ((up.cross ((point - eye).normalized)).normalized)).toFloat4,
         ((point - eye).normalized).toFloat4,
         ⟨-(((up.cross ((point - eye).normalized)).normalized).dot eye),
          -((((point - eye).normalized).cross
              ((up.cross ((point - eye).normalized)).normalized)).dot eye),
          -(((point - eye).normalized).dot eye), 1⟩⟩) ∧
    float4x4.lookAt ⟨0, 0, 1⟩ ⟨0, 0, 0⟩ ⟨0, 1, 0⟩ = float4x4.identity := by
  constructor
  · intro point eye up
    unfold float4x4.lookAt
    dsimp only
    rw [float3.normalized_cross_normalized]
  · unfold float4x4.lookAt float4x4.identity
    dsimp only
    norm_num [float3_sub_def, float3.normalized, float3.sqrMagnitude, float3.cross,
      float3.dot, float3.toFloat4, invSqrt, Real.sqrt_one]

/-! ### Claim C3: branch structure of toRotation -/

/-- Claim C3: `toRotation` computes `trace = m00 + m11 + m22`; if the trace is
positive it derives `(x, y, z)` from the skew off-diagonal differences scaled
by `s = fastInvSqrt(trace + 1)/2` and `w = s*(trace + 1)`; otherwise it picks
whichever diagonal entry is largest (the selected entry is maximal among the
three), puts `s*(diagonal_combination + 1)` in that axis's component with
`s = fastInvSqrt(diagonal_combination + 1)/2`, and derives the remaining
three components from the symmetric off-diagonal sums and one difference,
scaled by `s`. -/
theorem claim_C3 (m : float4x4) :
    (0 < m.a.x + m.b.y + m.c.z →
      m.toRotation =
        ⟨(m.b.z - m.c.y) * (invSqrt (m.a.x + m.b.y + m.c.z + 1) / 2),
         (m.c.x - m.a.z) * (invSqrt (m.a.x + m.b.y + m.c.z + 1) / 2),
         (m.a.y - m.b.x) * (invSqrt (m.a.x + m.b.y + m.c.z + 1) / 2),
         invSqrt (m.a.x + m.b.y + m.c.z + 1) / 2 * (m.a.x + m.b.y + m.c.z + 1)⟩) ∧
    (¬ 0 < m.a.x + m.b.y + m.c.z → m.b.y < m.a.x → m.c.z < m.a.x →
      (m.b.y ≤ m.a.x ∧ m.c.z ≤ m.a.x) ∧
      m.toRotation =
        ⟨invSqrt (m.a.x - m.b.y - m.c.z + 1) / 2 * (m.a.x - m.b.y - m.c.z + 1),
         (m.a.y + m.b.x) * (invSqrt (m.a.x - m.b.y - m.c.z + 1) / 2),
         (m.c.x + m.a.z) * (invSqrt (m.a.x - m.b.y - m.c.z + 1) / 2),
         (m.b.z - m.c.y) * (invSqrt (m.a.x - m.b.y - m.c.z + 1) / 2)⟩) ∧
    (¬ 0 < m.a.x + m.b.y + m.c.z → ¬ (m.b.y < m.a.x ∧ m.c.z < m.a.x) →
      m.c.z < m.b.y →
      (m.a.x ≤ m.b.y ∧ m.c.z ≤ m.b.y) ∧
      m.toRotation =
        ⟨(m.a.y + m.b.x) * (invSqrt (-m.a.x + m.b.y - m.c.z + 1) / 2),
         invSqrt (-m.a.x + m.b.y - m.c.z + 1) / 2 * (-m.a.x + m.b.y - m.c.z + 1),
         (m.b.z + m.c.y) * (invSqrt (-m.a.x + m.b.y - m.c.z + 1) / 2),
         (m.c.x - m.a.z) * (invSqrt (-m.a.x + m.b.y - m.c.z + 1) / 2)⟩) ∧
    (¬ 0 < m.a.x + m.b.y + m.c.z → ¬ (m.b.y < m.a.x ∧ m.c.z < m.a.x) →
      ¬ m.c.z < m.b.y →
      (m.a.x ≤ m.c.z ∧ m.b.y ≤ m.c.z) ∧
      m.toRotation =
        ⟨(m.c.x + m.a.z) * (invSqrt (-m.a.x - m.b.y + m.c.z + 1) / 2),
         (m.b.z + m.c.y) * (invSqrt (-m.a.x - m.b.y + m.c.z + 1) / 2),
         invSqrt (-m.a.x - m.b.y + m.c.z + 1) / 2 * (-m.a.x - m.b.y + m.c.z + 1),
         (m.a.y - m.b.x) * (invSqrt (-m.a.x - m.b.y + m.c.z + 1) / 2)⟩) := by
  refine ⟨?_, ?_, ?_, ?_⟩
  · intro h1
    unfold float4x4.toRotation
    dsimp only
    rw [if_pos h1]
    ext <;> dsimp only <;> ring
  · intro h1 h2a h2b
    refine ⟨⟨le_of_lt h2a, le_of_lt h2b⟩, ?_⟩
    unfold float4x4.toRotation
    dsimp only
    rw [if_neg h1, if_pos ⟨h2a, h2b⟩]
    ext <;> dsimp only <;> ring
  · intro h1 h2 h3
    constructor
    · rcases not_and_or.mp h2 with h | h
      · exact ⟨le_of_not_lt h, le_of_lt h3⟩
      · exact ⟨le_trans (le_of_not_lt h) (le_of_lt h3), le_of_lt h3⟩
    · unfold float4x4.toRotation
      dsimp only
      rw [if_neg h1, if_neg h2, if_pos h3]
      ext <;> dsimp only <;> ring
  · intro h1 h2 h3
    constructor
    · rcases not_and_or.mp h2 with h | h
      · exact ⟨le_trans (le_of_not_lt h) (le_of_not_lt h3), le_of_not_lt h3⟩
      · exact ⟨le_of_not_lt h, le_of_not_lt h3⟩
    · unfold float4x4.toRotation
      dsimp only
      rw [if_neg h1, if_neg h2, if_neg h3]
      ext <;> dsimp only <;> ring

/-- Witness for claim C3: the identity matrix has positive trace and extracts
to the identity quaternion. -/
theorem claim_C3_witness :
    (0 : ℝ) < float4x4.identity.a.x + float4x4.identity.b.y + float4x4.identity.c.z ∧
    float4x4.toRotation float4x4.identity = ⟨0, 0, 0, 1⟩ := by
  have hpos :
      (0 : ℝ) < float4x4.identity.a.x + float4x4.identity.b.y + float4x4.identity.c.z := by
    unfold float4x4.identity
    norm_num
  refine ⟨hpos, ?_⟩
  rw [(claim_C3 float4x4.identity).1 hpos]
  have hsqrt : Real.sqrt (4 : ℝ) = 2 := by
    rw [show (4 : ℝ) = 2 ^ 2 by norm_num, Real.sqrt_sq (by norm_num)]
  unfold float4x4.identity invSqrt
  ext <;> norm_num [hsqrt]

/-! ### Claim C8: projection depth at the near plane -/

/-- Claim C8 (code bug): neither `perspectiveGL` nor `orthoGL` maps the point
at the center of the near plane to normalized depth -1.  With
`fov = pi/2, aspect = 1, near = 1, far = 3`, the library's own
`perspectiveMul` (which pads `w` with 0) sends `(0,0,near)` to depth `-2/3`;
dividing the full homogeneous product of `(0,0,near,1)` by its `w` gives
`-1/3`; and `orthoGL(-1,1,-1,1,1,2)` applied to `(0,0,near)` by the matrix
point product gives `-2`. -/
theorem claim_C8 :
    (float4x4.perspectiveMul
        (float4x4.perspectiveGL (Real.pi / 2) 1 1 3) ⟨0, 0, 1⟩).z = -(2 / 3) ∧
    ((float4x4.perspectiveGL (Real.pi / 2) 1 1 3).mulVec ⟨0, 0, 1, 1⟩).z /
      ((float4x4.perspectiveGL (Real.pi / 2) 1 1 3).mulVec ⟨0, 0, 1, 1⟩).w =
        -(1 / 3) ∧
    ((float4x4.orthoGL (-1) 1 (-1) 1 1 2).mulPoint ⟨0, 0, 1⟩).z = -2 ∧
    (-(2 / 3) : ℝ) ≠ -1 ∧ (-(1 / 3) : ℝ) ≠ -1 ∧ (-2 : ℝ) ≠ -1 := by
  refine ⟨?_, ?_, ?_, by norm_num, by norm_num, by norm_num⟩
  · unfold float4x4.perspectiveMul float4x4.perspectiveGL float3.toFloat4 float4.dot
    dsimp only
    norm_num
  · unfold float4x4.mulVec float4x4.perspectiveGL float4.dot
    dsimp only
    norm_num
  · unfold float4x4.mulPoint float4x4.mulVec float4x4.orthoGL float4.dot
      float4.toFloat3
    norm_num

/-! ### Claim C1: the rotation round trip -/

/-- Squaring the scale factor `4 * d * (fisqrt((2d)^2) * 0.5)` that appears in
every branch of `toRotation` gives exactly 1 (ideal inverse square root,
`d ≠ 0`). -/
lemma invSqrt_sq_key (d : ℝ) (hd : d ≠ 0) :
    (4 * d * (invSqrt ((2 * d) ^ 2) * 0.5)) ^ 2 = 1 := by
  unfold invSqrt
  rw [Real.sqrt_sq_eq_abs]
  have h2 : |2 * d| ≠ 0 := abs_ne_zero.mpr (by intro h0; apply hd; linarith)
  field_simp
  ring

/-- `fromRotation` applied to `(u*x, u*y, u*z, -(u*w))` with `u^2 = 1` gives
the transpose of `fromRotation (x, y, z, w)`: the sign `u` cancels in every
(quadratic) entry, and negating the scalar part transposes the matrix. -/
lemma fromRotation_flip (u x y z w : ℝ) (hu : u ^ 2 = 1) :
    float4x4.fromRotation ⟨u * x, u * y, u * z, -(u * w)⟩ =
      (float4x4.fromRotation ⟨x, y, z, w⟩).transposed := by
  have h2 : (u - 1) * (u + 1) = 0 := by linear_combination hu
  rcases mul_eq_zero.mp h2 with h | h
  · have hu1 : u = 1 := by linarith
    subst hu1
    unfold float4x4.fromRotation float4x4.transposed
    dsimp only
    ext <;> dsimp only <;> ring
  · have hu1 : u = -1 := by linarith
    subst hu1
    unfold float4x4.fromRotation float4x4.transposed
    dsimp only
    ext <;> dsimp only <;> ring

/-- Counterexample to claim C1 as stated: for the 90-degree rotation about X
(an orthonormal rotation matrix), `fromRotation(toRotation(R))` is not `R`
(it is the transpose of `R`): `toRotation` reads the off-diagonal terms in
the transposed convention relative to `fromRotation` and therefore extracts
the conjugate (inverse) quaternion. -/
theorem claim_C1_counterexample :
    float4x4.fromRotation
        (float4x4.toRotation
          ⟨⟨1, 0, 0, 0⟩, ⟨0, 0, -1, 0⟩, ⟨0, 1, 0, 0⟩, ⟨0, 0, 0, 1⟩⟩) ≠
      ⟨⟨1, 0, 0, 0⟩, ⟨0, 0, -1, 0⟩, ⟨0, 1, 0, 0⟩, ⟨0, 0, 0, 1⟩⟩ := by
  intro heq
  have hval := congrArg (fun M => M.b.z) heq
  simp only at hval
  unfold float4x4.toRotation at hval
  dsimp only at hval
  rw [if_pos (by norm_num)] at hval
  unfold float4x4.fromRotation at hval
  dsimp only at hval
  have hs : invSqrt (1 + 0 + 0 + 1) ^ 2 = 2⁻¹ := by
    rw [show (1 + 0 + 0 + 1 : ℝ) = 2 by norm_num]
    unfold invSqrt
    rw [inv_pow, Real.sq_sqrt (by norm_num : (0 : ℝ) ≤ 2)]
  nlinarith [hs, hval]

set_option maxHeartbeats 1600000 in
/-- Claim C1 (amended): for every rotation matrix `R = fromRotation q` with
`q` a unit quaternion, `fromRotation(toRotation(R))` reconstructs the
TRANSPOSE of `R` (the inverse rotation), exactly, in each of the four branch
cases of `toRotation`; the round trip reproduces `R` itself only when `R` is
symmetric. -/
theorem claim_C1 (x y z w : ℝ) (h : x ^ 2 + y ^ 2 + z ^ 2 + w ^ 2 = 1) :
    float4x4.fromRotation (float4x4.fromRotation ⟨x, y, z, w⟩).toRotation =
      (float4x4.fromRotation ⟨x, y, z, w⟩).transposed := by
  have eax : (float4x4.fromRotation ⟨x, y, z, w⟩).a.x = 1 - y * (y + y) - z * (z + z) := rfl
  have eay : (float4x4.fromRotation ⟨x, y, z, w⟩).a.y = x * (y + y) - w * (z + z) := rfl
  have eaz : (float4x4.fromRotation ⟨x, y, z, w⟩).a.z = x * (z + z) + w * (y + y) := rfl
  have ebx : (float4x4.fromRotation ⟨x, y, z, w⟩).b.x = x * (y + y) + w * (z + z) := rfl
  have eby : (float4x4.fromRotation ⟨x, y, z, w⟩).b.y = 1 - x * (x + x) - z * (z + z) := rfl
  have ebz : (float4x4.fromRotation ⟨x, y, z, w⟩).b.z = y * (z + z) - w * (x + x) := rfl
  have ecx : (float4x4.fromRotation ⟨x, y, z, w⟩).c.x = x * (z + z) - w * (y + y) := rfl
  have ecy : (float4x4.fromRotation ⟨x, y, z, w⟩).c.y = y * (z + z) + w * (x + x) := rfl
  have ecz : (float4x4.fromRotation ⟨x, y, z, w⟩).c.z = 1 - x * (x + x) - y * (y + y) := rfl
  unfold float4x4.toRotation
  dsimp only
  split_ifs with h1 h2 h3
  · -- trace-positive branch: the scalar part w dominates
    rw [eax, eby, ecz] at h1
    have hw2 : 1 / 4 < w ^ 2 := by nlinarith [h, h1]
    have hw0 : w ≠ 0 := by
      intro h0
      rw [h0] at hw2
      norm_num at hw2
    rw [eax, eay, eaz, ebx, eby, ebz, ecx, ecy, ecz]
    rw [show (1 - y * (y + y) - z * (z + z) + (1 - x * (x + x) - z * (z + z)) +
        (1 - x * (x + x) - y * (y + y)) + 1 : ℝ) = (2 * w) ^ 2 from by
      linear_combination (-4 : ℝ) * h]
    refine (congrArg float4x4.fromRotation ?_).trans
      (fromRotation_flip (-(4 * w * (invSqrt ((2 * w) ^ 2) * 0.5))) x y z w
        (by rw [neg_sq]; exact invSqrt_sq_key w hw0))
    ext <;> dsimp only <;> ring
  · -- m00-dominant branch
    rw [eax, eby, ecz] at h1
    replace h1 := not_lt.mp h1
    obtain ⟨h2a, h2b⟩ := h2
    rw [eax, eby] at h2a
    rw [eax, ecz] at h2b
    have hx2 : 1 / 4 < x ^ 2 := by nlinarith [h, h1, h2a, h2b]
    have hx0 : x ≠ 0 := by
      intro h0
      rw [h0] at hx2
      norm_num at hx2
    rw [eax, eay, eaz, ebx, eby, ebz, ecx, ecy, ecz]
    rw [show (1 - y * (y + y) - z * (z + z) - (1 - x * (x + x) - z * (z + z)) -
        (1 - x * (x + x) - y * (y + y)) + 1 : ℝ) = (2 * x) ^ 2 from by ring]
    refine (congrArg float4x4.fromRotation ?_).trans
      (fromRotation_flip (4 * x * (invSqrt ((2 * x) ^ 2) * 0.5)) x y z w
        (invSqrt_sq_key x hx0))
    ext <;> dsimp only <;> ring
  · -- m11-dominant branch
    rw [eax, eby, ecz] at h1
    replace h1 := not_lt.mp h1
    rw [eby, ecz] at h3
    have hy2 : 1 / 4 < y ^ 2 := by
      rcases not_and_or.mp h2 with hcase | hcase
      · rw [eax, eby] at hcase
        replace hcase := not_lt.mp hcase
        nlinarith [h, h1, hcase, h3]
      · rw [eax, ecz] at hcase
        replace hcase := not_lt.mp hcase
        nlinarith [h, h1, hcase, h3]
    have hy0 : y ≠ 0 := by
      intro h0
      rw [h0] at hy2
      norm_num at hy2
    rw [eax, eay, eaz, ebx, eby, ebz, ecx, ecy, ecz]
    rw [show (-(1 - y * (y + y) - z * (z + z)) + (1 - x * (x + x) - z * (z + z)) -
        (1 - x * (x + x) - y * (y + y)) + 1 : ℝ) = (2 * y) ^ 2 from by ring]
    refine (congrArg float4x4.fromRotation ?_).trans
      (fromRotation_flip (4 * y * (invSqrt ((2 * y) ^ 2) * 0.5)) x y z w
        (invSqrt_sq_key y hy0))
    ext <;> dsimp only <;> ring
  · -- m22-dominant branch
    rw [eax, eby, ecz] at h1
    replace h1 := not_lt.mp h1
    rw [eby, ecz] at h3
    replace h3 := not_lt.mp h3
    have hz2 : 1 / 4 ≤ z ^ 2 := by
      rcases not_and_or.mp h2 with hcase | hcase
      · rw [eax, eby] at hcase
        replace hcase := not_lt.mp hcase
        nlinarith [h, h1, hcase, h3]
      · rw [eax, ecz] at hcase
        replace hcase := not_lt.mp hcase
        nlinarith [h, h1, hcase, h3]
    have hz0 : z ≠ 0 := by
      intro h0
      rw [h0] at hz2
      norm_num at hz2
    rw [eax, eay, eaz, ebx, eby, ebz, ecx, ecy, ecz]
    rw [show (-(1 - y * (y + y) - z * (z + z)) - (1 - x * (x + x) - z * (z + z)) +
        (1 - x * (x + x) - y * (y + y)) + 1 : ℝ) = (2 * z) ^ 2 from by ring]
    refine (congrArg float4x4.fromRotation ?_).trans
      (fromRotation_flip (4 * z * (invSqrt ((2 * z) ^ 2) * 0.5)) x y z w
        (invSqrt_sq_key z hz0))
    ext <;> dsimp only <;> ring

/-- Witness for the amended claim C1 at the identity quaternion. -/
theorem claim_C1_witness :
    (0 : ℝ) ^ 2 + (0 : ℝ) ^ 2 + (0 : ℝ) ^ 2 + (1 : ℝ) ^ 2 = 1 ∧
    float4x4.fromRotation (float4x4.fromRotation ⟨0, 0, 0, 1⟩).toRotation =
      (float4x4.fromRotation ⟨0, 0, 0, 1⟩).transposed :=
  ⟨by norm_num, claim_C1 0 0 0 1 (by norm_num)⟩

/-! ### Claim C2: accuracy of the bit-level fast inverse square root

The positive normal float with biased exponent `E` and mantissa `m` has bit
pattern `E * 2^23 + m`.  The claim is settled on exponents `27 ≤ E ≤ 227`
(a representative range away from the denormal and overflow extremes):
the relative error of `fisqrt` against `1/sqrt n` is at most `1/500 = 0.2%`.
The proof reduces, by the exact scaling `fisqrt(4n) = fisqrt(n)/2`, to the
two base octaves `n ∈ [1,4)`, where the seed is piecewise affine in the
mantissa and the squared relative error becomes a polynomial inequality,
certified by nonnegative Bernstein-basis certificates. -/

lemma decodeBits_eq (E m : ℕ) (hm : m < 2 ^ 23) :
    decodeBits (E * 2 ^ 23 + m) = (1 + (m : ℚ) / 2 ^ 23) * 2 ^ ((E : ℤ) - 127) := by
  unfold decodeBits
  rw [show (E * 2 ^ 23 + m) % 2 ^ 23 = m from by omega,
      show (E * 2 ^ 23 + m) / 2 ^ 23 = E from by omega]

lemma decode125 (m : ℕ) (hm : m < 2 ^ 23) :
    decodeBits (125 * 2 ^ 23 + m) = (1 + (m : ℚ) / 2 ^ 23) / 4 := by
  rw [decodeBits_eq 125 m hm, show ((125 : ℕ) : ℤ) - 127 = -2 from by norm_num]
  norm_num
  ring

lemma decode126 (m : ℕ) (hm : m < 2 ^ 23) :
    decodeBits (126 * 2 ^ 23 + m) = (1 + (m : ℚ) / 2 ^ 23) / 2 := by
  rw [decodeBits_eq 126 m hm, show ((126 : ℕ) : ℤ) - 127 = -1 from by norm_num]
  norm_num
  ring

lemma decode127 (m : ℕ) (hm : m < 2 ^ 23) :
    decodeBits (127 * 2 ^ 23 + m) = 1 + (m : ℚ) / 2 ^ 23 := by
  rw [decodeBits_eq 127 m hm, show ((127 : ℕ) : ℤ) - 127 = 0 from by norm_num]
  norm_num

lemma decode128 (m : ℕ) (hm : m < 2 ^ 23) :
    decodeBits (128 * 2 ^ 23 + m) = (1 + (m : ℚ) / 2 ^ 23) * 2 := by
  rw [decodeBits_eq 128 m hm, show ((128 : ℕ) : ℤ) - 127 = 1 from by norm_num]
  norm_num

/-- The relative-error contract of `fisqrt` at bit pattern `b`: the result is
within 0.2% of `1 / sqrt n`. -/
def errOK (b : ℕ) : Prop :=
  |((fisqrt b : ℚ) : ℝ) * Real.sqrt ((decodeBits b : ℚ) : ℝ) - 1| ≤ 1 / 500

/-- Transfer of rational bounds on `q^2 * n` to the real relative error of
`q` against `1 / sqrt n`. -/
lemma errOK_of_bounds (q n : ℚ) (hn : 0 < n) (hq : 0 ≤ q)
    (hlow : (499 / 500) ^ 2 ≤ q ^ 2 * n) (hhigh : q ^ 2 * n ≤ (501 / 500) ^ 2) :
    |((q : ℚ) : ℝ) * Real.sqrt ((n : ℚ) : ℝ) - 1| ≤ 1 / 500 := by
  have hn' : (0 : ℝ) ≤ ((n : ℚ) : ℝ) := by exact_mod_cast hn.le
  have hq' : (0 : ℝ) ≤ ((q : ℚ) : ℝ) := by exact_mod_cast hq
  have ha0 : 0 ≤ ((q : ℚ) : ℝ) * Real.sqrt ((n : ℚ) : ℝ) :=
    mul_nonneg hq' (Real.sqrt_nonneg _)
  have ha2 : (((q : ℚ) : ℝ) * Real.sqrt ((n : ℚ) : ℝ)) ^ 2 =
      ((q : ℚ) : ℝ) ^ 2 * ((n : ℚ) : ℝ) := by
    rw [mul_pow, Real.sq_sqrt hn']
  have hlo0 : (((499 / 500 : ℚ) ^ 2 : ℚ) : ℝ) ≤ ((q ^ 2 * n : ℚ) : ℝ) := by
    exact_mod_cast hlow
  have hhi0 : ((q ^ 2 * n : ℚ) : ℝ) ≤ (((501 / 500 : ℚ) ^ 2 : ℚ) : ℝ) := by
    exact_mod_cast hhigh
  push_cast at hlo0 hhi0
  have hlo' : ((499 : ℝ) / 500) ^ 2 ≤ (((q : ℚ) : ℝ) * Real.sqrt ((n : ℚ) : ℝ)) ^ 2 := by
    rw [ha2]
    linarith [hlo0]
  have hhi' : (((q : ℚ) : ℝ) * Real.sqrt ((n : ℚ) : ℝ)) ^ 2 ≤ ((501 : ℝ) / 500) ^ 2 := by
    rw [ha2]
    linarith [hhi0]
  have h1 : (499 : ℝ) / 500 ≤ ((q : ℚ) : ℝ) * Real.sqrt ((n : ℚ) : ℝ) := by
    nlinarith [ha0, hlo']
  have h2 : ((q : ℚ) : ℝ) * Real.sqrt ((n : ℚ) : ℝ) ≤ (501 : ℝ) / 500 := by
    nlinarith [ha0, hhi']
  rw [abs_le]
  constructor <;> linarith

/-- Nonnegativity of a degree-3 polynomial written in the basis
`u^i v^(3-i)` with nonnegative coefficients. -/
lemma bern3 (u v k0 k1 k2 k3 : ℚ) (hu : 0 ≤ u) (hv : 0 ≤ v)
    (h0 : 0 ≤ k0) (h1 : 0 ≤ k1) (h2 : 0 ≤ k2) (h3 : 0 ≤ k3) :
    0 ≤ k0 * v ^ 3 + k1 * u * v ^ 2 + k2 * u ^ 2 * v + k3 * u ^ 3 := by
  have t0 : 0 ≤ k0 * v ^ 3 := mul_nonneg h0 (pow_nonneg hv 3)
  have t1 : 0 ≤ k1 * u * v ^ 2 := mul_nonneg (mul_nonneg h1 hu) (pow_nonneg hv 2)
  have t2 : 0 ≤ k2 * u ^ 2 * v := mul_nonneg (mul_nonneg h2 (pow_nonneg hu 2)) hv
  have t3 : 0 ≤ k3 * u ^ 3 := mul_nonneg h3 (pow_nonneg hu 3)
  linarith

/-- Nonnegativity of a degree-9 polynomial written in the basis
`u^i v^(9-i)` with nonnegative coefficients. -/
lemma bern9 (u v k0 k1 k2 k3 k4 k5 k6 k7 k8 k9 : ℚ) (hu : 0 ≤ u) (hv : 0 ≤ v)
    (h0 : 0 ≤ k0) (h1 : 0 ≤ k1) (h2 : 0 ≤ k2) (h3 : 0 ≤ k3) (h4 : 0 ≤ k4)
    (h5 : 0 ≤ k5) (h6 : 0 ≤ k6) (h7 : 0 ≤ k7) (h8 : 0 ≤ k8) (h9 : 0 ≤ k9) :
    0 ≤ k0 * v ^ 9 + k1 * u * v ^ 8 + k2 * u ^ 2 * v ^ 7 + k3 * u ^ 3 * v ^ 6 +
        k4 * u ^ 4 * v ^ 5 + k5 * u ^ 5 * v ^ 4 + k6 * u ^ 6 * v ^ 3 +
        k7 * u ^ 7 * v ^ 2 + k8 * u ^ 8 * v + k9 * u ^ 9 := by
  have t0 : 0 ≤ k0 * v ^ 9 := mul_nonneg h0 (pow_nonneg hv 9)
  have t1 : 0 ≤ k1 * u * v ^ 8 := mul_nonneg (mul_nonneg h1 hu) (pow_nonneg hv 8)
  have t2 : 0 ≤ k2 * u ^ 2 * v ^ 7 :=
    mul_nonneg (mul_nonneg h2 (pow_nonneg hu 2)) (pow_nonneg hv 7)
  have t3 : 0 ≤ k3 * u ^ 3 * v ^ 6 :=
    mul_nonneg (mul_nonneg h3 (pow_nonneg hu 3)) (pow_nonneg hv 6)
  have t4 : 0 ≤ k4 * u ^ 4 * v ^ 5 :=
    mul_nonneg (mul_nonneg h4 (pow_nonneg hu 4)) (pow_nonneg hv 5)
  have t5 : 0 ≤ k5 * u ^ 5 * v ^ 4 :=
    mul_nonneg (mul_nonneg h5 (pow_nonneg hu 5)) (pow_nonneg hv 4)
  have t6 : 0 ≤ k6 * u ^ 6 * v ^ 3 :=
    mul_nonneg (mul_nonneg h6 (pow_nonneg hu 6)) (pow_nonneg hv 3)
  have t7 : 0 ≤ k7 * u ^ 7 * v ^ 2 :=
    mul_nonneg (mul_nonneg h7 (pow_nonneg hu 7)) (pow_nonneg hv 2)
  have t8 : 0 ≤ k8 * u ^ 8 * v := mul_nonneg (mul_nonneg h8 (pow_nonneg hu 8)) hv
  have t9 : 0 ≤ k9 * u ^ 9 := mul_nonneg h9 (pow_nonneg hu 9)
  linarith

/-- Bernstein-certificate bounds for the squared relative error of the
`fisqrt` Newton-Raphson polynomial on seed piece `p1r0`. -/
lemma fisqrt_bounds_p1r0 (t : ℚ) (ht0 : (0 : ℚ) ≤ t) (ht1 : t ≤ 1) :
    0 ≤ (14680057 / 16777216 - t / 4) * (703952253 / 1000000000) * (238924456 / 100000000 - (1 + t) * ((14680057 / 16777216 - t / 4) * (14680057 / 16777216 - t / 4))) ∧
    (499 / 500) ^ 2 ≤ ((14680057 / 16777216 - t / 4) * (703952253 / 1000000000) * (238924456 / 100000000 - (1 + t) * ((14680057 / 16777216 - t / 4) * (14680057 / 16777216 - t / 4)))) ^ 2 * (1 + t) ∧
    ((14680057 / 16777216 - t / 4) * (703952253 / 1000000000) * (238924456 / 100000000 - (1 + t) * ((14680057 / 16777216 - t / 4) * (14680057 / 16777216 - t / 4)))) ^ 2 * (1 + t) ≤ (501 / 500) ^ 2 := by
  have hu : 0 ≤ t - 0 := by linarith
  have hv : 0 ≤ 1 - t := by linarith
  refine ⟨?_, ?_, ?_⟩
  · have hy0 : (0 : ℚ) ≤ (14680057 / 16777216 - t / 4) := by linarith
    have hinner : (0 : ℚ) ≤ 238924456 / 100000000 - (1 + t) * ((14680057 / 16777216 - t / 4) * (14680057 / 16777216 - t / 4)) := by
      have key := bern3 (t - 0) (1 - t) (178518938812036149231 / 109951162777600000000) (124869787123422326767 / 27487790694400000000) (504633143655270166443 / 109951162777600000000) (88400493150008504303 / 54975581388800000000) hu hv (by norm_num) (by norm_num) (by norm_num) (by norm_num)
      linarith [key]
    exact mul_nonneg (mul_nonneg hy0 (by norm_num : (0 : ℚ) ≤ 703952253 / 1000000000)) hinner
  · have key := bern9 (t - 0) (1 - t) (14154334847778172000478545966364441621762090062691949267682003584631001 / 3402823669209384634633746074317682114560000000000000000000000000000000000) (52592955362700505684870028574710767529641211576197481274957516471779979 / 850705917302346158658436518579420528640000000000000000000000000000000000) (628036367578503639691315027858840199198054203731008448127465084767106407 / 3402823669209384634633746074317682114560000000000000000000000000000000000) (400001553870995030010150423407740976988492359546716900551163332357722247 / 1701411834604692317316873037158841057280000000000000000000000000000000000) (644280005142579769323734531093615821600835136934797413264404209398641587 / 3402823669209384634633746074317682114560000000000000000000000000000000000) (90458415124039631814533766595330220813197330715255408971973288334422097 / 425352958651173079329218259289710264320000000000000000000000000000000000) (879437616630118025113571084220465992090872383537389044050111467944968081 / 3402823669209384634633746074317682114560000000000000000000000000000000000) (298958596068076497632573331162819391831884267742673878841417875676992491 / 1701411834604692317316873037158841057280000000000000000000000000000000000) (45682520866422592564215038282583619725362522481906727576917042084891831 / 850705917302346158658436518579420528640000000000000000000000000000000000) (2136331394828115277726308816932130831999363779396913449569018175373529 / 425352958651173079329218259289710264320000000000000000000000000000000000) hu hv (by norm_num) (by norm_num) (by norm_num) (by norm_num) (by norm_num) (by norm_num) (by norm_num) (by norm_num) (by norm_num) (by norm_num)
    linarith [key]
  · have key := bern9 (t - 0) (1 - t) (13068254505896905076591422628177015294717909937308050732317996415368999 / 3402823669209384634633746074317682114560000000000000000000000000000000000) (8657870683068417738537400763007510532438788423802518725042483528220021 / 850705917302346158658436518579420528640000000000000000000000000000000000) (351976849153799135083203841544652249795225796268991551872534915232893593 / 3402823669209384634633746074317682114560000000000000000000000000000000000) (743347198983358207226788257563000213503667640453283099448836667642277753 / 1701411834604692317316873037158841057280000000000000000000000000000000000) (2785766253420479942387081511818607749875644863065202586735595790601358413 / 3402823669209384634633746074317682114560000000000000000000000000000000000) (338297367196342832149318238768697725621362669284744591028026711665577903 / 425352958651173079329218259289710264320000000000000000000000000000000000) (1407259889078588449360306277721016388893447616462610955949888532055031919 / 3402823669209384634633746074317682114560000000000000000000000000000000000) (191048012298074889754686103538926832664755732257326121158582124323007509 / 1701411834604692317316873037158841057280000000000000000000000000000000000) (15568305179346330859192391055134658336717477518093272423082957915108169 / 850705917302346158658436518579420528640000000000000000000000000000000000) (1266492274381269356907437257385551282560636220603086550430981824626471 / 425352958651173079329218259289710264320000000000000000000000000000000000) hu hv (by norm_num) (by norm_num) (by norm_num) (by norm_num) (by norm_num) (by norm_num) (by norm_num) (by norm_num) (by norm_num) (by norm_num)
    linarith [key]

/-- Bernstein-certificate bounds for the squared relative error of the
`fisqrt` Newton-Raphson polynomial on seed piece `p1r1`. -/
lemma fisqrt_bounds_p1r1 (t : ℚ) (ht0 : (0 : ℚ) ≤ t) (ht1 : t ≤ 1) :
    0 ≤ (14680057 / 16777216 - t / 4) * (703952253 / 1000000000) * (238924456 / 100000000 - (1 + t + 1 / 8388608) * ((14680057 / 16777216 - t / 4) * (14680057 / 16777216 - t / 4))) ∧
    (499 / 500) ^ 2 ≤ ((14680057 / 16777216 - t / 4) * (703952253 / 1000000000) * (238924456 / 100000000 - (1 + t + 1 / 8388608) * ((14680057 / 16777216 - t / 4) * (14680057 / 16777216 - t / 4)))) ^ 2 * (1 + t + 1 / 8388608) ∧
    ((14680057 / 16777216 - t / 4) * (703952253 / 1000000000) * (238924456 / 100000000 - (1 + t + 1 / 8388608) * ((14680057 / 16777216 - t / 4) * (14680057 / 16777216 - t / 4)))) ^ 2 * (1 + t + 1 / 8388608) ≤ (501 / 500) ^ 2 := by
  have hu : 0 ≤ t - 0 := by linarith
  have hv : 0 ≤ 1 - t := by linarith
  refine ⟨?_, ?_, ?_⟩
  · have hy0 : (0 : ℚ) ≤ (14680057 / 16777216 - t / 4) := by linarith
    have hinner : (0 : ℚ) ≤ 238924456 / 100000000 - (1 + t + 1 / 8388608) * ((14680057 / 16777216 - t / 4) * (14680057 / 16777216 - t / 4)) := by
      have key := bern3 (t - 0) (1 - t) (1497525314088878217709219823 / 922337203685477580800000000) (4189934576447124688327659469 / 922337203685477580800000000) (4233169462723186281927659469 / 922337203685477580800000000) (1483114125134597462509219823 / 922337203685477580800000000) hu hv (by norm_num) (by norm_num) (by norm_num) (by norm_num)
      linarith [key]
    exact mul_nonneg (mul_nonneg hy0 (by norm_num : (0 : ℚ) ≤ 703952253 / 1000000000)) hinner
  · have key := bern9 (t - 0) (1 - t) (8355258184303042644133763982275861576001203156812936064530304957452207826004685655967351001 / 2008672555323737844427452615426453253152753742228491044126720000000000000000000000000000000000) (124181571708025577827145540907479742008876863179564626329386931276221599762115945910600681377 / 2008672555323737844427452615426453253152753742228491044126720000000000000000000000000000000000) (92681691305261708191163991664979389134384360078467616030950656873852409690195148052340885409 / 502168138830934461106863153856613313288188435557122761031680000000000000000000000000000000000) (118059258627944949607105280101727000752117807327487566942754571805188799810849067962279285197 / 502168138830934461106863153856613313288188435557122761031680000000000000000000000000000000000) (190156772414700826825975976530445671398685072231096283075301873974137426584007972843110200679 / 1004336277661868922213726307713226626576376871114245522063360000000000000000000000000000000000) (213587893446118068056404029055516971148503745548034013953312443102827854695502602958753690983 / 1004336277661868922213726307713226626576376871114245522063360000000000000000000000000000000000) (129781827705462817445050214918960079164634023938391776948280921906460928291157144106306261453 / 502168138830934461106863153856613313288188435557122761031680000000000000000000000000000000000) (88236935554648021744449989776814519766292898177682464610996938911204964796796126852679419809 / 502168138830934461106863153856613313288188435557122761031680000000000000000000000000000000000) (107864783028447149108033490953829840365307776765777566577247606568234902326703262794945087393 / 2008672555323737844427452615426453253152753742228491044126720000000000000000000000000000000000) (10088543166323098237862940572962260287013645582808153645108146469673026249311131683778543833 / 2008672555323737844427452615426453253152753742228491044126720000000000000000000000000000000000) hu hv (by norm_num) (by norm_num) (by norm_num) (by norm_num) (by norm_num) (by norm_num) (by norm_num) (by norm_num) (by norm_num) (by norm_num)
    linarith [key]
  · have key := bern9 (t - 0) (1 - t) (7714122258286860111285856941135764449220826781014992288483455042547792173995314344032648999 / 2008672555323737844427452615426453253152753742228491044126720000000000000000000000000000000000) (20442852275283546971631047403224892218121406260886728847736908723778400237884054089399318623 / 2008672555323737844427452615426453253152753742228491044126720000000000000000000000000000000000) (51942732678047416607612596645725245092613909361983739146173183126147590309804851947659114591 / 502168138830934461106863153856613313288188435557122761031680000000000000000000000000000000000) (219397730666443008256706759289917145777544821366898928470534388194811200189150932037720714803 / 502168138830934461106863153856613313288188435557122761031680000000000000000000000000000000000) (822214195468463046765460141644486768190302813852063203164565006025862573415992027156889799321 / 1004336277661868922213726307713226626576376871114245522063360000000000000000000000000000000000) (798783074437045805535032089119415468440484140535125472286554436897172145304497397041246309017 / 1004336277661868922213726307713226626576376871114245522063360000000000000000000000000000000000) (207675161588925140418761824472684067365028604755994718465008038093539071708842855893693738547 / 502168138830934461106863153856613313288188435557122761031680000000000000000000000000000000000) (56387488428661103054326598533890114460705371262768890566126901088795035203203873147320580191 / 502168138830934461106863153856613313288188435557122761031680000000000000000000000000000000000) (36759640954861975690743097356874793861690492674673788599876233431765097673296737205054912607 / 2008672555323737844427452615426453253152753742228491044126720000000000000000000000000000000000) (5980837276266804517556680350449365738208384355019774707905613530326973750688868316221456167 / 2008672555323737844427452615426453253152753742228491044126720000000000000000000000000000000000) hu hv (by norm_num) (by norm_num) (by norm_num) (by norm_num) (by norm_num) (by norm_num) (by norm_num) (by norm_num) (by norm_num) (by norm_num)
    linarith [key]

/-- Bernstein-certificate bounds for the squared relative error of the
`fisqrt` Newton-Raphson polynomial on seed piece `p2r0`. -/
lemma fisqrt_bounds_p2r0 (t : ℚ) (ht0 : (0 : ℚ) ≤ t) (ht1 : t ≤ 1 / 2) :
    0 ≤ (10485753 / 16777216 - t / 4) * (703952253 / 1000000000) * (238924456 / 100000000 - (2 + 2 * t) * ((10485753 / 16777216 - t / 4) * (10485753 / 16777216 - t / 4))) ∧
    (499 / 500) ^ 2 ≤ ((10485753 / 16777216 - t / 4) * (703952253 / 1000000000) * (238924456 / 100000000 - (2 + 2 * t) * ((10485753 / 16777216 - t / 4) * (10485753 / 16777216 - t / 4)))) ^ 2 * (2 + 2 * t) ∧
    ((10485753 / 16777216 - t / 4) * (703952253 / 1000000000) * (238924456 / 100000000 - (2 + 2 * t) * ((10485753 / 16777216 - t / 4) * (10485753 / 16777216 - t / 4)))) ^ 2 * (2 + 2 * t) ≤ (501 / 500) ^ 2 := by
  have hu : 0 ≤ t - 0 := by linarith
  have hv : 0 ≤ (1 / 2) - t := by linarith
  refine ⟨?_, ?_, ?_⟩
  · have hy0 : (0 : ℚ) ≤ (10485753 / 16777216 - t / 4) := by linarith
    have hinner : (0 : ℚ) ≤ 238924456 / 100000000 - (2 + 2 * t) * ((10485753 / 16777216 - t / 4) * (10485753 / 16777216 - t / 4)) := by
      have key := bern3 (t - 0) ((1 / 2) - t) (88400493150008504303 / 6871947673600000000) (521813058714431885193 / 13743895347200000000) (65870880300901593071 / 1717986918400000000) (180236983074397867981 / 13743895347200000000) hu hv (by norm_num) (by norm_num) (by norm_num) (by norm_num)
      linarith [key]
    exact mul_nonneg (mul_nonneg hy0 (by norm_num : (0 : ℚ) ≤ 703952253 / 1000000000)) hinner
  · have key := bern9 (t - 0) ((1 / 2) - t) (2136331394828115277726308816932130831999363779396913449569018175373529 / 830767497365572420564879412675215360000000000000000000000000000000000) (40863472969908888053707850949554557576691418514711656457606655777591757 / 1661534994731144841129758825350430720000000000000000000000000000000000) (325944136826312104502933997717048885729227668824865618072292377350137163 / 3323069989462289682259517650700861440000000000000000000000000000000000) (1505042838187351396156534487120164252229301345099897796014540594979617507 / 6646139978924579364519035301401722880000000000000000000000000000000000) (565641498448089604617898878060501441817832752707007412016808510443995133 / 1661534994731144841129758825350430720000000000000000000000000000000000) (2287621849223807571476191400849442321215110099702698778192958139346066737 / 6646139978924579364519035301401722880000000000000000000000000000000000) (760779125676110878572607726861667980043439971344775854274816578118376219 / 3323069989462289682259517650700861440000000000000000000000000000000000) (618500783473832944113335875822620200584697679286151113885593761822460021 / 6646139978924579364519035301401722880000000000000000000000000000000000) (16335530867219746017010452652246680871821710865129568428443045833856739 / 830767497365572420564879412675215360000000000000000000000000000000000) (9174486719822577869321274382244389478671305061043826022029345528338147 / 6646139978924579364519035301401722880000000000000000000000000000000000) hu hv (by norm_num) (by norm_num) (by norm_num) (by norm_num) (by norm_num) (by norm_num) (by norm_num) (by norm_num) (by norm_num) (by norm_num)
    linarith [key]
  · have key := bern9 (t - 0) ((1 / 2) - t) (1266492274381269356907437257385551282560636220603086550430981824626471 / 830767497365572420564879412675215360000000000000000000000000000000000) (20387353075860035369699578388163720485388581485288343542393344222408243 / 1661534994731144841129758825350430720000000000000000000000000000000000) (164062471539839282884325436984697338767412331175134381927707622649862837 / 3323069989462289682259517650700861440000000000000000000000000000000000) (781654667521355078317342874821318128755018654900102203985459405020382493 / 6646139978924579364519035301401722880000000000000000000000000000000000) (291870066192675323309805132667554451051287247292992587983191489556004867 / 1661534994731144841129758825350430720000000000000000000000000000000000) (1142424409339252140234624642062781250261369900297301221807041860653933263 / 6646139978924579364519035301401722880000000000000000000000000000000000) (382569627178242358664330954109073210448720028655224145725183421881623781 / 3323069989462289682259517650700861440000000000000000000000000000000000) (361512433258469830661182993580872248408582320713848886114406238177539979 / 6646139978924579364519035301401722880000000000000000000000000000000000) (14289882155664715694693262016612458159218289134870431571556954166143261 / 830767497365572420564879412675215360000000000000000000000000000000000) (18048102633852499207748694212297067437808694938956173977970654471661853 / 6646139978924579364519035301401722880000000000000000000000000000000000) hu hv (by norm_num) (by norm_num) (by norm_num) (by norm_num) (by norm_num) (by norm_num) (by norm_num) (by norm_num) (by norm_num) (by norm_num)
    linarith [key]

/-- Bernstein-certificate bounds for the squared relative error of the
`fisqrt` Newton-Raphson polynomial on seed piece `p2r1`. -/
lemma fisqrt_bounds_p2r1 (t : ℚ) (ht0 : (0 : ℚ) ≤ t) (ht1 : t ≤ 1 / 2) :
    0 ≤ (10485753 / 16777216 - t / 4) * (703952253 / 1000000000) * (238924456 / 100000000 - (2 + 2 * t + 1 / 4194304) * ((10485753 / 16777216 - t / 4) * (10485753 / 16777216 - t / 4))) ∧
    (499 / 500) ^ 2 ≤ ((10485753 / 16777216 - t / 4) * (703952253 / 1000000000) * (238924456 / 100000000 - (2 + 2 * t + 1 / 4194304) * ((10485753 / 16777216 - t / 4) * (10485753 / 16777216 - t / 4)))) ^ 2 * (2 + 2 * t + 1 / 4194304) ∧
    ((10485753 / 16777216 - t / 4) * (703952253 / 1000000000) * (238924456 / 100000000 - (2 + 2 * t + 1 / 4194304) * ((10485753 / 16777216 - t / 4) * (10485753 / 16777216 - t / 4)))) ^ 2 * (2 + 2 * t + 1 / 4194304) ≤ (501 / 500) ^ 2 := by
  have hu : 0 ≤ t - 0 := by linarith
  have hv : 0 ≤ (1 / 2) - t := by linarith
  refine ⟨?_, ?_, ?_⟩
  · have hy0 : (0 : ℚ) ≤ (10485753 / 16777216 - t / 4) := by linarith
    have hinner : (0 : ℚ) ≤ 238924456 / 100000000 - (2 + 2 * t + 1 / 4194304) * ((10485753 / 16777216 - t / 4) * (10485753 / 16777216 - t / 4)) := by
      have key := bern3 (t - 0) ((1 / 2) - t) (741557041092490923245039599 / 57646075230342348800000000) (2188642487749187380935118797 / 57646075230342348800000000) (2210259877629623707335118797 / 57646075230342348800000000) (755968671569134456045039599 / 57646075230342348800000000) hu hv (by norm_num) (by norm_num) (by norm_num) (by norm_num)
      linarith [key]
    exact mul_nonneg (mul_nonneg hy0 (by norm_num : (0 : ℚ) ≤ 703952253 / 1000000000)) hinner
  · have key := bern9 (t - 0) ((1 / 2) - t) (1261068319674654500474195246762374834430678808931360439084034779401212902362931459514253529 / 490398573077084434674671048688098938757996519098752696320000000000000000000000000000000000) (12060771327890178731494246098896206711034790317684891429173745575899477416004029947923089313 / 490398573077084434674671048688098938757996519098752696320000000000000000000000000000000000) (12025216549435372778546480035553859686363874187870972316629198809795631984862922258493687713 / 122599643269271108668667762172024734689499129774688174080000000000000000000000000000000000) (5552627865217498685640700865625412165299554143825491207360073773522068472261145462596099369 / 24519928653854221733733552434404946937899825954937634816000000000000000000000000000000000) (83473954156779669794221602191869445181148706610675902231325428957272317727912343667479606631 / 245199286538542217337335524344049469378998259549376348160000000000000000000000000000000000) (84398364236373154623970492458066148681803068044966853044614614639779722857132521637031114087 / 245199286538542217337335524344049469378998259549376348160000000000000000000000000000000000) (28067806508147126909581192260213213518149617089018016500046281966550461089135730309318988237 / 122599643269271108668667762172024734689499129774688174080000000000000000000000000000000000) (11409333474509400822393395452543619041459876046730829677489375173466870597104975588088301473 / 122599643269271108668667762172024734689499129774688174080000000000000000000000000000000000) (1928561364998849562543271759025504564678335803054112533623074513523776357609853227159300077 / 98079714615416886934934209737619787751599303819750539264000000000000000000000000000000000) (676959326963681042702597128745402425943996434844857096511366316364745600559610375260160217 / 490398573077084434674671048688098938757996519098752696320000000000000000000000000000000000) hu hv (by norm_num) (by norm_num) (by norm_num) (by norm_num) (by norm_num) (by norm_num) (by norm_num) (by norm_num) (by norm_num) (by norm_num)
    linarith [key]
  · have key := bern9 (t - 0) ((1 / 2) - t) (747604235649083343953257368664078418722074933297130605042685220598787097637068540485746471 / 490398573077084434674671048688098938757996519098752696320000000000000000000000000000000000) (6017281670023461868352827439941872567339993362371527967966734424100522583995970052076910687 / 490398573077084434674671048688098938757996519098752696320000000000000000000000000000000000) (6052836448478267821300593503284219592010909492185447080511281190204368015137077741506312287 / 122599643269271108668667762172024734689499129774688174080000000000000000000000000000000000) (2883796867142200260954600119165691497942011573534171177972150226477931527738854537403900631 / 24519928653854221733733552434404946937899825954937634816000000000000000000000000000000000) (43072416828615814404707912579997109767474779149719033548657931042727682272087656332520393369 / 245199286538542217337335524344049469378998259549376348160000000000000000000000000000000000) (42148006749022329574959022313800406266820417715428082735368745360220277142867478362968885913 / 245199286538542217337335524344049469378998259549376348160000000000000000000000000000000000) (14114317153651367823395312663742304798058211497780295426614838033449538910864269690681011763 / 122599643269271108668667762172024734689499129774688174080000000000000000000000000000000000) (6668719523404239777453678086294460236914907633325589719651104826533129402895024411911698527 / 122599643269271108668667762172024734689499129774688174080000000000000000000000000000000000) (1687049234583878557426142948742111290996620932957171345805021486476223642390146772840699923 / 98079714615416886934934209737619787751599303819750539264000000000000000000000000000000000) (1331713228360056801724855486681050827208757307383633947615353683635254399440389624739839783 / 490398573077084434674671048688098938757996519098752696320000000000000000000000000000000000) hu hv (by norm_num) (by norm_num) (by norm_num) (by norm_num) (by norm_num) (by norm_num) (by norm_num) (by norm_num) (by norm_num) (by norm_num)
    linarith [key]

/-- Bernstein-certificate bounds for the squared relative error of the
`fisqrt` Newton-Raphson polynomial on seed piece `p3r0`. -/
lemma fisqrt_bounds_p3r0 (t : ℚ) (ht0 : (1048573 / 2097152 : ℚ) ≤ t) (ht1 : t ≤ 1) :
    0 ≤ (18874361 / 33554432 - t / 8) * (703952253 / 1000000000) * (238924456 / 100000000 - (2 + 2 * t) * ((18874361 / 33554432 - t / 8) * (18874361 / 33554432 - t / 8))) ∧
    (499 / 500) ^ 2 ≤ ((18874361 / 33554432 - t / 8) * (703952253 / 1000000000) * (238924456 / 100000000 - (2 + 2 * t) * ((18874361 / 33554432 - t / 8) * (18874361 / 33554432 - t / 8)))) ^ 2 * (2 + 2 * t) ∧
    ((18874361 / 33554432 - t / 8) * (703952253 / 1000000000) * (238924456 / 100000000 - (2 + 2 * t) * ((18874361 / 33554432 - t / 8) * (18874361 / 33554432 - t / 8)))) ^ 2 * (2 + 2 * t) ≤ (501 / 500) ^ 2 := by
  have hu : 0 ≤ t - (1048573 / 2097152) := by linarith
  have hv : 0 ≤ 1 - t := by linarith
  refine ⟨?_, ?_, ?_⟩
  · have hy0 : (0 : ℚ) ≤ (18874361 / 33554432 - t / 8) := by linarith
    have hinner : (0 : ℚ) ≤ 238924456 / 100000000 - (2 + 2 * t) * ((18874361 / 33554432 - t / 8) * (18874361 / 33554432 - t / 8)) := by
      have key := bern3 (t - (1048573 / 2097152)) (1 - t) (755968492898649361665352099 / 57646570011990426950000000) (1119541142371880244104473461 / 28823285005995213475000000) (2233677946293064296249962547 / 57646570011990426950000000) (5849708586992800538001408 / 450363828218675210546875) hu hv (by norm_num) (by norm_num) (by norm_num) (by norm_num)
      linarith [key]
    exact mul_nonneg (mul_nonneg hy0 (by norm_num : (0 : ℚ) ≤ 703952253 / 1000000000)) hinner
  · have key := bern9 (t - (1048573 / 2097152)) (1 - t) (1083152528717450788220642222419880469867937537699174694628897189069941466858625510440989 / 784657920953185227627220871417334383992845419020541347328000000000000000000000000000000) (157356238055865250215730696373681754732748290458414908469692956148397063517717614228585337 / 9808224011914815345340260892716679799910567737756766841600000000000000000000000000000000) (7180073568672966757577400413992499316434062990298311698751989068388300344419400737021634487 / 98082240119148153453402608927166797999105677377567668416000000000000000000000000000000000) (3214560832844491848655105325816489306525067488989774729310846769457416715311660524087427633 / 17514685735562170259536180165565499642697442388851369360000000000000000000000000000000000) (20056963025112913721017490733140489503423800947208231439539417217018643135743383537996754437 / 70058742942248681038144720662261998570789769555405477440000000000000000000000000000000000) (2044759023989104445240276138681440228547462420987108406845804992721810603823896175384587163 / 7005874294224868103814472066226199857078976955540547744000000000000000000000000000000000) (2739654728976145305907410568468253430981912304772142375201824393733646400214682587535451583 / 14011748588449736207628944132452399714157953911081095488000000000000000000000000000000000) (1941721814845893613630684659174713564256200248405643542597115647108181028319067240391 / 23384628324305570948935177070419024944092196792976300338745117187500000000000000000) (18026017761810157003524715242325564334558808625823171707074667426755893968440288 / 892052777263853872258574564759026525272071716040660871076397597789764404296875) (1899762664620012093897445352348999774461543084745890994599542347617028672585728 / 892052777263853872258574564759026525272071716040660871076397597789764404296875) hu hv (by norm_num) (by norm_num) (by norm_num) (by norm_num) (by norm_num) (by norm_num) (by norm_num) (by norm_num) (by norm_num) (by norm_num)
    linarith [key]
  · have key := bern9 (t - (1048573 / 2097152)) (1 - t) (2130723559800529762863281962262444735176468449866410975973854810930058533141374489559011 / 784657920953185227627220871417334383992845419020541347328000000000000000000000000000000) (204204821902407561781210774403079830834747383142713479473116643851602936482282385771414663 / 9808224011914815345340260892716679799910567737756766841600000000000000000000000000000000) (7282368829657945722300258417077964106265763953746823818960394931611699655580599262978365513 / 98082240119148153453402608927166797999105677377567668416000000000000000000000000000000000) (2811456833126721684627252520462870452933193737695698403069313230542583284688339475912572367 / 17514685735562170259536180165565499642697442388851369360000000000000000000000000000000000) (16099142970714367478676656344535669053325766412904607354741542782981356864256616462003245563 / 70058742942248681038144720662261998570789769555405477440000000000000000000000000000000000) (1570851575593623674729138569086175627127494315024175472582291007278189396176103824615412837 / 7005874294224868103814472066226199857078976955540547744000000000000000000000000000000000) (2081159403800825520718475708555234376584696676576236130702303606266353599785317412464548417 / 14011748588449736207628944132452399714157953911081095488000000000000000000000000000000000) (1506393152102356317675596151913482098885962776507461353402884352891818971680932759609 / 23384628324305570948935177070419024944092196792976300338745117187500000000000000000) (14857769078135158656058193493790803607699673591136828292925332573244106031559712 / 892052777263853872258574564759026525272071716040660871076397597789764404296875) (1753991428707245201611766729441707774678288272694109005400457652382971327414272 / 892052777263853872258574564759026525272071716040660871076397597789764404296875) hu hv (by norm_num) (by norm_num) (by norm_num) (by norm_num) (by norm_num) (by norm_num) (by norm_num) (by norm_num) (by norm_num) (by norm_num)
    linarith [key]

/-- Bernstein-certificate bounds for the squared relative error of the
`fisqrt` Newton-Raphson polynomial on seed piece `p3r1`. -/
lemma fisqrt_bounds_p3r1 (t : ℚ) (ht0 : (1048573 / 2097152 : ℚ) ≤ t) (ht1 : t ≤ 1) :
    0 ≤ (18874361 / 33554432 - t / 8) * (703952253 / 1000000000) * (238924456 / 100000000 - (2 + 2 * t + 1 / 4194304) * ((18874361 / 33554432 - t / 8) * (18874361 / 33554432 - t / 8))) ∧
    (499 / 500) ^ 2 ≤ ((18874361 / 33554432 - t / 8) * (703952253 / 1000000000) * (238924456 / 100000000 - (2 + 2 * t + 1 / 4194304) * ((18874361 / 33554432 - t / 8) * (18874361 / 33554432 - t / 8)))) ^ 2 * (2 + 2 * t + 1 / 4194304) ∧
    ((18874361 / 33554432 - t / 8) * (703952253 / 1000000000) * (238924456 / 100000000 - (2 + 2 * t + 1 / 4194304) * ((18874361 / 33554432 - t / 8) * (18874361 / 33554432 - t / 8)))) ^ 2 * (2 + 2 * t + 1 / 4194304) ≤ (501 / 500) ^ 2 := by
  have hu : 0 ≤ t - (1048573 / 2097152) := by linarith
  have hv : 0 ≤ 1 - t := by linarith
  refine ⟨?_, ?_, ?_⟩
  · have hy0 : (0 : ℚ) ≤ (18874361 / 33554432 - t / 8) := by linarith
    have hinner : (0 : ℚ) ≤ 238924456 / 100000000 - (2 + 2 * t + 1 / 4194304) * ((18874361 / 33554432 - t / 8) * (18874361 / 33554432 - t / 8)) := by
      have key := bern3 (t - (1048573 / 2097152)) (1 - t) (3023873861643447776261017771 / 230586280047961707800000000) (8956328836609460640829928313 / 230586280047961707800000000) (8934711508576546823375240813 / 230586280047961707800000000) (2995050712359035155437580271 / 230586280047961707800000000) hu hv (by norm_num) (by norm_num) (by norm_num) (by norm_num)
      linarith [key]
    exact mul_nonneg (mul_nonneg hy0 (by norm_num : (0 : ℚ) ≤ 703952253 / 1000000000)) hinner
  · have key := bern9 (t - (1048573 / 2097152)) (1 - t) (1733048379609828305651715501491020270132676609496368899053435593013148529029129343300389181 / 1255452673525096364203553394267735014388552670432866155724800000000000000000000000000000000) (100708151950120943622012931237633287179385621375333227905830816311152052722760505362010883953 / 6277263367625481821017766971338675071942763352164330778624000000000000000000000000000000000) (4487551156449752012270390110214378845239148605765788994001141912683226801090402934662606623 / 61301400074467595908376630579479248749441048360979792760000000000000000000000000000000000) (102866040503621714336338767977891741794228609521861250206557050187810478916868918518896681003 / 560469943537989448305157765298095988566318156443243819520000000000000000000000000000000000) (641823311672021152572653806925926682306068017822986660479705697236082492266995892279521695943 / 2241879774151957793220631061192383954265272625772975278080000000000000000000000000000000000) (5234586730046740759755467217363807138793722320590988789714492475860888510993184473966876511 / 17935038193215662345765048489539071634122181006183802224640000000000000000000000000000000) (21917252350726065628680966069429433854368722060847945080015834085237369629612135330310805039 / 112093988707597889661031553059619197713263631288648763904000000000000000000000000000000000) (81441770447604088827827538025749004365539063685264926844240039593299251028096171559761599273 / 980822401191481534534026089271667979991056773775676684160000000000000000000000000000000000) (634234572974267412733859652370066969684786111359082716056907792626715422683644246071633454273 / 31386316838127409105088834856693375359713816760821653893120000000000000000000000000000000000) (66842010973484055136902355564645499913745613118552297186906921703252359124743758379053301977 / 31386316838127409105088834856693375359713816760821653893120000000000000000000000000000000000) hu hv (by norm_num) (by norm_num) (by norm_num) (by norm_num) (by norm_num) (by norm_num) (by norm_num) (by norm_num) (by norm_num) (by norm_num)
    linarith [key]
  · have key := bern9 (t - (1048573 / 2097152)) (1 - t) (3409153362018940576082563194000700057938372970608568173910967606986851470970870656699610819 / 1255452673525096364203553394267735014388552670432866155724800000000000000000000000000000000) (130690926423173656056029610059494127583811609729388940377567327688847947277239494637989116047 / 6277263367625481821017766971338675071942763352164330778624000000000000000000000000000000000) (4551475342507068287653146659204660793948243234262420704569098087316773198909597065337393377 / 61301400074467595908376630579479248749441048360979792760000000000000000000000000000000000) (89966524807457118728696683103047770508435749732073890029608069812189521083131081481103318997 / 560469943537989448305157765298095988566318156443243819520000000000000000000000000000000000) (515172080194451845817558899559710391509918137700624180937285022763917507733004107720478304057 / 2241879774151957793220631061192383954265272625772975278080000000000000000000000000000000000) (4021376404885043227366234434521289451734166923597897941621433284139111489006815526033123489 / 17935038193215662345765048489539071634122181006183802224640000000000000000000000000000000) (16649260711489700984326124146758468606164149789939082967217189914762630370387864669689194961 / 112093988707597889661031553059619197713263631288648763904000000000000000000000000000000000) (63182653535705035970949050284955629861459205755186428332883800406700748971903828440238400727 / 980822401191481534534026089271667979991056773775676684160000000000000000000000000000000000) (522760818892205585656353054115570104131200044164528125360082927373284577316355753928366545727 / 31386316838127409105088834856693375359713816760821653893120000000000000000000000000000000000) (61713032567235166906454611822647508288030626384071129637203158296747640875256241620946698023 / 31386316838127409105088834856693375359713816760821653893120000000000000000000000000000000000) hu hv (by norm_num) (by norm_num) (by norm_num) (by norm_num) (by norm_num) (by norm_num) (by norm_num) (by norm_num) (by norm_num) (by norm_num)
    linarith [key]

/-- Base-octave case of the `fisqrt` error bound (piece `p1r0`). -/
lemma base127_r0 (k : ℕ) (hk : k ≤ 4194303) : errOK (127 * 2 ^ 23 + 2 * k) := by
  have hfis : fisqrt (127 * 2 ^ 23 + 2 * k) =
      (14680057 / 16777216 - ((k : ℚ) / 4194304) / 4) * (703952253 / 1000000000) * (238924456 / 100000000 - (1 + ((k : ℚ) / 4194304)) * ((14680057 / 16777216 - ((k : ℚ) / 4194304) / 4) * (14680057 / 16777216 - ((k : ℚ) / 4194304) / 4))) := by
    unfold fisqrt
    dsimp only
    rw [show (0x5F1FFFF9 : ℕ) - (127 * 2 ^ 23 + 2 * k) / 2 = 126 * 2 ^ 23 + (6291449 - k) from by omega]
    rw [decode126 (6291449 - k) (by omega), decode127 (2 * k) (by omega)]
    rw [Nat.cast_sub (show k ≤ 6291449 from by omega)]
    rw [show (0.703952253 : ℚ) = 703952253 / 1000000000 from by norm_num,
        show (2.38924456 : ℚ) = 238924456 / 100000000 from by norm_num]
    push_cast
    ring
  have hd : decodeBits (127 * 2 ^ 23 + 2 * k) = (1 + ((k : ℚ) / 4194304)) := by
    rw [decode127 (2 * k) (by omega)]
    push_cast
    ring
  have ht0str : (0 : ℚ) ≤ ((k : ℚ) / 4194304) := by
    positivity
  have ht1str : ((k : ℚ) / 4194304) ≤ 1 := by
    have hk2 : (k : ℚ) ≤ 4194303 := by exact_mod_cast hk
    linarith
  obtain ⟨hq0, hlo, hhi⟩ := fisqrt_bounds_p1r0 ((k : ℚ) / 4194304) ht0str ht1str
  have key : errOK (127 * 2 ^ 23 + 2 * k) := by
    unfold errOK
    rw [hfis, hd]
    exact errOK_of_bounds _ _ (by nlinarith [ht0str]) hq0 hlo hhi
  exact key

/-- Base-octave case of the `fisqrt` error bound (piece `p1r1`). -/
lemma base127_r1 (k : ℕ) (hk : k ≤ 4194303) : errOK (127 * 2 ^ 23 + (2 * k + 1)) := by
  have hfis : fisqrt (127 * 2 ^ 23 + (2 * k + 1)) =
      (14680057 / 16777216 - ((k : ℚ) / 4194304) / 4) * (703952253 / 1000000000) * (238924456 / 100000000 - (1 + ((k : ℚ) / 4194304) + 1 / 8388608) * ((14680057 / 16777216 - ((k : ℚ) / 4194304) / 4) * (14680057 / 16777216 - ((k : ℚ) / 4194304) / 4))) := by
    unfold fisqrt
    dsimp only
    rw [show (0x5F1FFFF9 : ℕ) - (127 * 2 ^ 23 + (2 * k + 1)) / 2 = 126 * 2 ^ 23 + (6291449 - k) from by omega]
    rw [decode126 (6291449 - k) (by omega), decode127 (2 * k + 1) (by omega)]
    rw [Nat.cast_sub (show k ≤ 6291449 from by omega)]
    rw [show (0.703952253 : ℚ) = 703952253 / 1000000000 from by norm_num,
        show (2.38924456 : ℚ) = 238924456 / 100000000 from by norm_num]
    push_cast
    ring
  have hd : decodeBits (127 * 2 ^ 23 + (2 * k + 1)) = (1 + ((k : ℚ) / 4194304) + 1 / 8388608) := by
    rw [decode127 (2 * k + 1) (by omega)]
    push_cast
    ring
  have ht0str : (0 : ℚ) ≤ ((k : ℚ) / 4194304) := by
    positivity
  have ht1str : ((k : ℚ) / 4194304) ≤ 1 := by
    have hk2 : (k : ℚ) ≤ 4194303 := by exact_mod_cast hk
    linarith
  obtain ⟨hq0, hlo, hhi⟩ := fisqrt_bounds_p1r1 ((k : ℚ) / 4194304) ht0str ht1str
  have key : errOK (127 * 2 ^ 23 + (2 * k + 1)) := by
    unfold errOK
    rw [hfis, hd]
    exact errOK_of_bounds _ _ (by nlinarith [ht0str]) hq0 hlo hhi
  exact key

/-- Base-octave case of the `fisqrt` error bound (piece `p2r0`). -/
lemma base128A_r0 (k : ℕ) (hk : k ≤ 2097145) : errOK (128 * 2 ^ 23 + 2 * k) := by
  have hfis : fisqrt (128 * 2 ^ 23 + 2 * k) =
      (10485753 / 16777216 - ((k : ℚ) / 4194304) / 4) * (703952253 / 1000000000) * (238924456 / 100000000 - (2 + 2 * ((k : ℚ) / 4194304)) * ((10485753 / 16777216 - ((k : ℚ) / 4194304) / 4) * (10485753 / 16777216 - ((k : ℚ) / 4194304) / 4))) := by
    unfold fisqrt
    dsimp only
    rw [show (0x5F1FFFF9 : ℕ) - (128 * 2 ^ 23 + 2 * k) / 2 = 126 * 2 ^ 23 + (2097145 - k) from by omega]
    rw [decode126 (2097145 - k) (by omega), decode128 (2 * k) (by omega)]
    rw [Nat.cast_sub (show k ≤ 2097145 from by omega)]
    rw [show (0.703952253 : ℚ) = 703952253 / 1000000000 from by norm_num,
        show (2.38924456 : ℚ) = 238924456 / 100000000 from by norm_num]
    push_cast
    ring
  have hd : decodeBits (128 * 2 ^ 23 + 2 * k) = (2 + 2 * ((k : ℚ) / 4194304)) := by
    rw [decode128 (2 * k) (by omega)]
    push_cast
    ring
  have ht0str : (0 : ℚ) ≤ ((k : ℚ) / 4194304) := by
    positivity
  have ht1str : ((k : ℚ) / 4194304) ≤ 1 / 2 := by
    have hk2 : (k : ℚ) ≤ 2097145 := by exact_mod_cast hk
    linarith
  obtain ⟨hq0, hlo, hhi⟩ := fisqrt_bounds_p2r0 ((k : ℚ) / 4194304) ht0str ht1str
  have key : errOK (128 * 2 ^ 23 + 2 * k) := by
    unfold errOK
    rw [hfis, hd]
    exact errOK_of_bounds _ _ (by nlinarith [ht0str]) hq0 hlo hhi
  exact key

/-- Base-octave case of the `fisqrt` error bound (piece `p2r1`). -/
lemma base128A_r1 (k : ℕ) (hk : k ≤ 2097145) : errOK (128 * 2 ^ 23 + (2 * k + 1)) := by
  have hfis : fisqrt (128 * 2 ^ 23 + (2 * k + 1)) =
      (10485753 / 16777216 - ((k : ℚ) / 4194304) / 4) * (703952253 / 1000000000) * (238924456 / 100000000 - (2 + 2 * ((k : ℚ) / 4194304) + 1 / 4194304) * ((10485753 / 16777216 - ((k : ℚ) / 4194304) / 4) * (10485753 / 16777216 - ((k : ℚ) / 4194304) / 4))) := by
    unfold fisqrt
    dsimp only
    rw [show (0x5F1FFFF9 : ℕ) - (128 * 2 ^ 23 + (2 * k + 1)) / 2 = 126 * 2 ^ 23 + (2097145 - k) from by omega]
    rw [decode126 (2097145 - k) (by omega), decode128 (2 * k + 1) (by omega)]
    rw [Nat.cast_sub (show k ≤ 2097145 from by omega)]
    rw [show (0.703952253 : ℚ) = 703952253 / 1000000000 from by norm_num,
        show (2.38924456 : ℚ) = 238924456 / 100000000 from by norm_num]
    push_cast
    ring
  have hd : decodeBits (128 * 2 ^ 23 + (2 * k + 1)) = (2 + 2 * ((k : ℚ) / 4194304) + 1 / 4194304) := by
    rw [decode128 (2 * k + 1) (by omega)]
    push_cast
    ring
  have ht0str : (0 : ℚ) ≤ ((k : ℚ) / 4194304) := by
    positivity
  have ht1str : ((k : ℚ) / 4194304) ≤ 1 / 2 := by
    have hk2 : (k : ℚ) ≤ 2097145 := by exact_mod_cast hk
    linarith
  obtain ⟨hq0, hlo, hhi⟩ := fisqrt_bounds_p2r1 ((k : ℚ) / 4194304) ht0str ht1str
  have key : errOK (128 * 2 ^ 23 + (2 * k + 1)) := by
    unfold errOK
    rw [hfis, hd]
    exact errOK_of_bounds _ _ (by nlinarith [ht0str]) hq0 hlo hhi
  exact key

/-- Base-octave case of the `fisqrt` error bound (piece `p3r0`). -/
lemma base128B_r0 (k : ℕ) (hk1 : 2097146 ≤ k) (hk : k ≤ 4194303) : errOK (128 * 2 ^ 23 + 2 * k) := by
  have hfis : fisqrt (128 * 2 ^ 23 + 2 * k) =
      (18874361 / 33554432 - ((k : ℚ) / 4194304) / 8) * (703952253 / 1000000000) * (238924456 / 100000000 - (2 + 2 * ((k : ℚ) / 4194304)) * ((18874361 / 33554432 - ((k : ℚ) / 4194304) / 8) * (18874361 / 33554432 - ((k : ℚ) / 4194304) / 8))) := by
    unfold fisqrt
    dsimp only
    rw [show (0x5F1FFFF9 : ℕ) - (128 * 2 ^ 23 + 2 * k) / 2 = 125 * 2 ^ 23 + (10485753 - k) from by omega]
    rw [decode125 (10485753 - k) (by omega), decode128 (2 * k) (by omega)]
    rw [Nat.cast_sub (show k ≤ 10485753 from by omega)]
    rw [show (0.703952253 : ℚ) = 703952253 / 1000000000 from by norm_num,
        show (2.38924456 : ℚ) = 238924456 / 100000000 from by norm_num]
    push_cast
    ring
  have hd : decodeBits (128 * 2 ^ 23 + 2 * k) = (2 + 2 * ((k : ℚ) / 4194304)) := by
    rw [decode128 (2 * k) (by omega)]
    push_cast
    ring
  have ht0str : (1048573 / 2097152 : ℚ) ≤ ((k : ℚ) / 4194304) := by
    have hk2 : (2097146 : ℚ) ≤ (k : ℚ) := by exact_mod_cast hk1
    linarith
  have ht1str : ((k : ℚ) / 4194304) ≤ 1 := by
    have hk2 : (k : ℚ) ≤ 4194303 := by exact_mod_cast hk
    linarith
  obtain ⟨hq0, hlo, hhi⟩ := fisqrt_bounds_p3r0 ((k : ℚ) / 4194304) ht0str ht1str
  have key : errOK (128 * 2 ^ 23 + 2 * k) := by
    unfold errOK
    rw [hfis, hd]
    exact errOK_of_bounds _ _ (by nlinarith [ht0str]) hq0 hlo hhi
  exact key

/-- Base-octave case of the `fisqrt` error bound (piece `p3r1`). -/
lemma base128B_r1 (k : ℕ) (hk1 : 2097146 ≤ k) (hk : k ≤ 4194303) : errOK (128 * 2 ^ 23 + (2 * k + 1)) := by
  have hfis : fisqrt (128 * 2 ^ 23 + (2 * k + 1)) =
      (18874361 / 33554432 - ((k : ℚ) / 4194304) / 8) * (703952253 / 1000000000) * (238924456 / 100000000 - (2 + 2 * ((k : ℚ) / 4194304) + 1 / 4194304) * ((18874361 / 33554432 - ((k : ℚ) / 4194304) / 8) * (18874361 / 33554432 - ((k : ℚ) / 4194304) / 8))) := by
    unfold fisqrt
    dsimp only
    rw [show (0x5F1FFFF9 : ℕ) - (128 * 2 ^ 23 + (2 * k + 1)) / 2 = 125 * 2 ^ 23 + (10485753 - k) from by omega]
    rw [decode125 (10485753 - k) (by omega), decode128 (2 * k + 1) (by omega)]
    rw [Nat.cast_sub (show k ≤ 10485753 from by omega)]
    rw [show (0.703952253 : ℚ) = 703952253 / 1000000000 from by norm_num,
        show (2.38924456 : ℚ) = 238924456 / 100000000 from by norm_num]
    push_cast
    ring
  have hd : decodeBits (128 * 2 ^ 23 + (2 * k + 1)) = (2 + 2 * ((k : ℚ) / 4194304) + 1 / 4194304) := by
    rw [decode128 (2 * k + 1) (by omega)]
    push_cast
    ring
  have ht0str : (1048573 / 2097152 : ℚ) ≤ ((k : ℚ) / 4194304) := by
    have hk2 : (2097146 : ℚ) ≤ (k : ℚ) := by exact_mod_cast hk1
    linarith
  have ht1str : ((k : ℚ) / 4194304) ≤ 1 := by
    have hk2 : (k : ℚ) ≤ 4194303 := by exact_mod_cast hk
    linarith
  obtain ⟨hq0, hlo, hhi⟩ := fisqrt_bounds_p3r1 ((k : ℚ) / 4194304) ht0str ht1str
  have key : errOK (128 * 2 ^ 23 + (2 * k + 1)) := by
    unfold errOK
    rw [hfis, hd]
    exact errOK_of_bounds _ _ (by nlinarith [ht0str]) hq0 hlo hhi
  exact key

lemma base127 (m : ℕ) (hm : m < 2 ^ 23) : errOK (127 * 2 ^ 23 + m) := by
  obtain ⟨k, r, hr, rfl⟩ : ∃ k r, r < 2 ∧ m = 2 * k + r :=
    ⟨m / 2, m % 2, by omega, by omega⟩
  interval_cases r
  · exact base127_r0 k (by omega)
  · exact base127_r1 k (by omega)

lemma base128 (m : ℕ) (hm : m < 2 ^ 23) : errOK (128 * 2 ^ 23 + m) := by
  obtain ⟨k, r, hr, rfl⟩ : ∃ k r, r < 2 ∧ m = 2 * k + r :=
    ⟨m / 2, m % 2, by omega, by omega⟩
  rcases le_or_lt k 2097145 with hk | hk
  · interval_cases r
    · exact base128A_r0 k hk
    · exact base128A_r1 k hk
  · interval_cases r
    · exact base128B_r0 k (by omega) (by omega)
    · exact base128B_r1 k (by omega) (by omega)

lemma decodeBits_add_two_exp (b : ℕ) : decodeBits (b + 2 ^ 24) = 4 * decodeBits b := by
  unfold decodeBits
  rw [show (b + 2 ^ 24) % 2 ^ 23 = b % 2 ^ 23 from by omega,
      show (b + 2 ^ 24) / 2 ^ 23 = b / 2 ^ 23 + 2 from by omega]
  rw [show (((b / 2 ^ 23 + 2 : ℕ) : ℤ) - 127) = ((b / 2 ^ 23 : ℕ) : ℤ) - 127 + 2 from by
    push_cast
    ring]
  rw [zpow_add₀ (by norm_num : (2 : ℚ) ≠ 0)]
  ring

lemma decodeBits_sub_exp (s : ℕ) (hs : 2 ^ 24 ≤ s) :
    decodeBits (s - 2 ^ 23) = decodeBits s / 2 := by
  unfold decodeBits
  rw [show (s - 2 ^ 23) % 2 ^ 23 = s % 2 ^ 23 from by omega,
      show (s - 2 ^ 23) / 2 ^ 23 = s / 2 ^ 23 - 1 from by omega]
  rw [show (((s / 2 ^ 23 - 1 : ℕ) : ℤ) - 127) = ((s / 2 ^ 23 : ℕ) : ℤ) - 127 - 1 from by
    rw [Nat.cast_sub (by omega : 1 ≤ s / 2 ^ 23)]
    push_cast
    ring]
  rw [zpow_sub₀ (by norm_num : (2 : ℚ) ≠ 0), zpow_one]
  ring

/-- Exact quartering scaling of `fisqrt`: adding 2 to the exponent of the
input exactly halves both the seed and the refined output. -/
lemma fisqrt_shift (b : ℕ) (hb : b ≤ 2000000000) :
    fisqrt (b + 2 ^ 24) = fisqrt b / 2 := by
  unfold fisqrt
  dsimp only
  rw [show (b + 2 ^ 24) / 2 = b / 2 + 2 ^ 23 from by omega]
  rw [show (0x5F1FFFF9 : ℕ) - (b / 2 + 2 ^ 23) = (0x5F1FFFF9 - b / 2) - 2 ^ 23 from by omega]
  rw [decodeBits_sub_exp (0x5F1FFFF9 - b / 2) (by omega), decodeBits_add_two_exp]
  ring

/-- The relative error of `fisqrt` is invariant under the exact scaling
`n -> 4n`. -/
lemma errOK_shift (b : ℕ) (hb : b ≤ 2000000000) : errOK (b + 2 ^ 24) ↔ errOK b := by
  unfold errOK
  rw [fisqrt_shift b hb, decodeBits_add_two_exp]
  rw [show ((4 * decodeBits b : ℚ) : ℝ) = 4 * ((decodeBits b : ℚ) : ℝ) from by
    push_cast
    ring]
  rw [Real.sqrt_mul (by norm_num : (0 : ℝ) ≤ 4)]
  rw [show Real.sqrt 4 = 2 from by
    rw [show (4 : ℝ) = 2 ^ 2 from by norm_num, Real.sqrt_sq (by norm_num : (0 : ℝ) ≤ 2)]]
  rw [show ((fisqrt b / 2 : ℚ) : ℝ) = ((fisqrt b : ℚ) : ℝ) / 2 from by
    push_cast
    ring]
  rw [show ((fisqrt b : ℚ) : ℝ) / 2 * (2 * Real.sqrt ((decodeBits b : ℚ) : ℝ)) =
      ((fisqrt b : ℚ) : ℝ) * Real.sqrt ((decodeBits b : ℚ) : ℝ) from by ring]

lemma errOK_iter :
    ∀ j b : ℕ, b + j * 2 ^ 24 ≤ 2000000000 → (errOK (b + j * 2 ^ 24) ↔ errOK b) := by
  intro j
  induction j with
  | zero =>
    intro b hb
    simp
  | succ i ih =>
    intro b hb
    rw [show b + (i + 1) * 2 ^ 24 = b + i * 2 ^ 24 + 2 ^ 24 from by ring]
    rw [errOK_shift (b + i * 2 ^ 24) (by omega)]
    exact ih b (by omega)

/-- Claim C2: for every strictly positive normal single-precision float in the
representative exponent range `2^-100 <= n <= 2^100` (bit pattern
`E * 2^23 + m` with `27 <= E <= 227`, `m < 2^23`), the bit-level fast inverse
square root with its tuned Newton-Raphson step approximates `1/sqrt n` with
relative error at most `1/500 = 0.2%`. -/
theorem claim_C2 (E m : ℕ) (hE1 : 27 ≤ E) (hE2 : E ≤ 227) (hm : m < 2 ^ 23) :
    |((fisqrt (E * 2 ^ 23 + m) : ℚ) : ℝ) *
        Real.sqrt ((decodeBits (E * 2 ^ 23 + m) : ℚ) : ℝ) - 1| ≤ 1 / 500 := by
  have key : errOK (E * 2 ^ 23 + m) := by
    rcases le_or_lt 127 E with hE | hE
    · rcases Nat.even_or_odd (E - 127) with ⟨j, hj⟩ | ⟨j, hj⟩
      · rw [show E * 2 ^ 23 + m = 127 * 2 ^ 23 + m + j * 2 ^ 24 from by omega]
        exact (errOK_iter j (127 * 2 ^ 23 + m) (by omega)).mpr (base127 m hm)
      · rw [show E * 2 ^ 23 + m = 128 * 2 ^ 23 + m + j * 2 ^ 24 from by omega]
        exact (errOK_iter j (128 * 2 ^ 23 + m) (by omega)).mpr (base128 m hm)
    · rcases Nat.even_or_odd (127 - E) with ⟨j, hj⟩ | ⟨j, hj⟩
      · have h1 : E * 2 ^ 23 + m + j * 2 ^ 24 = 127 * 2 ^ 23 + m := by omega
        have h2 := (errOK_iter j (E * 2 ^ 23 + m) (by omega)).mp
        rw [h1] at h2
        exact h2 (base127 m hm)
      · have h1 : E * 2 ^ 23 + m + (j + 1) * 2 ^ 24 = 128 * 2 ^ 23 + m := by omega
        have h2 := (errOK_iter (j + 1) (E * 2 ^ 23 + m) (by omega)).mp
        rw [h1] at h2
        exact h2 (base128 m hm)
  exact key

/-- Witness for claim C2 at the bit pattern of `n = 1`. -/
theorem claim_C2_witness :
    27 ≤ 127 ∧ 127 ≤ 227 ∧ 0 < 2 ^ 23 ∧
    |((fisqrt (127 * 2 ^ 23 + 0) : ℚ) : ℝ) *
        Real.sqrt ((decodeBits (127 * 2 ^ 23 + 0) : ℚ) : ℝ) - 1| ≤ 1 / 500 :=
  ⟨by norm_num, by norm_num, by norm_num,
    claim_C2 127 0 (by norm_num) (by norm_num) (by norm_num)⟩

end achilles.math
